import Mathlib

/-!
Verification of the Generate-Validate-Revise-Publish pipeline implemented in
`graph5.py`.  The Python source is shallowly embedded: every pipeline node is a
total Lean function over an explicit `OverallState` record (mirroring the
`OverallState` TypedDict), with the outcomes of external calls (sandbox
commands, the code-generation service, git commands) supplied by explicit
oracle records.  The one node-internal code path that lets an exception escape
(the Phase-1 handler reading a not-yet-assigned local) is modelled with
`Except`.  String scanning (imports, code fences, conflict markers, dev-server
output) is modelled over `List Char` so that every definition evaluates by
kernel reduction.
-/

set_option maxRecDepth 8000

/-! ## Character-list string utilities (model of the Python `str` operations used) -/

/-- Model of the Python whitespace class used by `str.strip` and `\s`. -/
def isSpaceChar (c : Char) : Bool := c.isWhitespace

/-- Model of `str.strip`: drop whitespace from both ends. -/
def trimCL (l : List Char) : List Char :=
  ((l.dropWhile isSpaceChar).reverse.dropWhile isSpaceChar).reverse

/-- Model of `str.split(sep)` for a one-character separator. -/
def splitCharCL (sep : Char) : List Char → List (List Char)
  | [] => [[]]
  | c :: t =>
    if c = sep then [] :: splitCharCL sep t
    else
      match splitCharCL sep t with
      | [] => [[c]]
      | h :: r => (c :: h) :: r

/-- Model of `str.split('\n')`. -/
def splitLinesCL (l : List Char) : List (List Char) := splitCharCL (Char.ofNat 10) l

/-- Model of the Python `in` operator on strings (substring test). -/
def containsCL (pat : List Char) : List Char → Bool
  | [] => pat.isEmpty
  | c :: t => pat.isPrefixOf (c :: t) || containsCL pat t

/-- Substring test lifted to `String`: `containsStr s pat` models `pat in s`. -/
def containsStr (s pat : String) : Bool := containsCL pat.toList s.toList

/-- Model of `str.startswith`. -/
def startsWithStr (s pat : String) : Bool := pat.toList.isPrefixOf s.toList

/-- Index of the first occurrence of `pat` in `l` (model of `str.find`, with
`none` for the -1 result). -/
def findIdxCL (pat : List Char) : List Char → Option Nat
  | [] => if pat.isEmpty then some 0 else none
  | c :: t =>
    if pat.isPrefixOf (c :: t) then some 0
    else (findIdxCL pat t).map (· + 1)

/-- Model of `str.find(pat, start)`. -/
def findFromCL (l pat : List Char) (start : Nat) : Option Nat :=
  (findIdxCL pat (l.drop start)).map (· + start)

/-- Model of `str.lower` (the markers being scanned for are all ASCII). -/
def lowerCL (l : List Char) : List Char := l.map Char.toLower

/-- Model of `str.lower` on `String`. -/
def lowerStr (s : String) : String := String.mk (lowerCL s.toList)

/-- Model of `str.strip` on `String`. -/
def strTrim (s : String) : String := String.mk (trimCL s.toList)

/-- Fuel-driven worker for `removeAllCL`. -/
def removeAllAux (pat : List Char) : Nat → List Char → List Char
  | 0, _ => []
  | _ + 1, [] => []
  | fuel + 1, c :: t =>
    if pat.isPrefixOf (c :: t) ∧ 0 < pat.length then
      removeAllAux pat fuel ((c :: t).drop pat.length)
    else c :: removeAllAux pat fuel t

/-- Model of `str.replace(pat, '')`: delete every occurrence of `pat`. -/
def removeAllCL (pat l : List Char) : List Char := removeAllAux pat l.length l

/-- Model of `str.rstrip('/')`. -/
def rstripSlash (l : List Char) : List Char :=
  (l.reverse.dropWhile (· = Char.ofNat 47)).reverse

/-- Model of `repo_url.rstrip('/').split('/')[-1].replace('.git', '')` from
`clone_repository_with_token`. -/
def repoNameOf (url : String) : String :=
  let base := rstripSlash url.toList
  let comp := (splitCharCL (Char.ofNat 47) base).getLastD []
  String.mk (removeAllCL ".git".toList comp)

/-! ## The workflow state (model of the `OverallState` TypedDict) -/

/-- Model of the `OverallState` TypedDict threaded through every node of
`build_modular_graph`.  The opaque E2B sandbox handle is modelled by a `Bool`
(present or absent), counters by `Int` (Python integers). -/
structure OverallState where
  target_repo_url : String := ""
  download : Bool := false
  branch_name : Option String := none
  sandbox : Bool := false
  repo_path : Option String := none
  generated_code : Option String := none
  code_written : Bool := false
  local_file_path : Option String := none
  result : Option String := none
  execution_successful : Bool := false
  revision_attempts : Int := 0
  last_error_name : Option String := none
  last_error_value : Option String := none
  last_error_type : Option String := none
  last_error_details : Option String := none
  max_revision_attempts : Int := 3
  langgraph_config_setup : Bool := false
  langgraph_dev_tested : Bool := false
  langgraph_dev_successful : Bool := false
  git_branch : Option String := none
  commit_message : Option String := none
  git_pushed : Bool := false
  repo_cloned : Bool := false
  code_generated : Bool := false
  success : Bool := false
  error_log : List String := []
  status : String := ""
  deriving DecidableEq, Repr

/-- Initial state of a run: the input fields of `InputState` plus the
defaults Python's `state.get(key, default)` supplies before `create_sandbox`
materialises them (`max_revision_attempts` defaults to 3). -/
def initState (inputMax : Option Int) : OverallState :=
  { max_revision_attempts := inputMax.getD 3 }

/-! ## Dependency extractor (model of `extract_required_packages`) -/

/-- The static alias table `package_mappings` of `extract_required_packages`
(observed import name to installable pip package name). -/
def packageMappings : List (String × String) :=
  [("langchain_core", "langchain-core"),
   ("langchain_community", "langchain-community"),
   ("langchain_openai", "langchain-openai"),
   ("langgraph", "langgraph"),
   ("pydantic", "pydantic"),
   ("typing_extensions", "typing-extensions"),
   ("numpy", "numpy"),
   ("pandas", "pandas"),
   ("requests", "requests"),
   ("aiohttp", "aiohttp"),
   ("httpx", "httpx"),
   ("openai", "openai"),
   ("anthropic", "anthropic")]

/-- The `builtin_modules` denylist of `extract_required_packages`. -/
def builtinModules : List String :=
  ["__future__", "os", "sys", "json", "time", "datetime", "asyncio", "typing",
   "re", "functools", "collections", "itertools", "pathlib",
   "logging", "uuid", "hashlib", "base64", "urllib", "http",
   "email", "csv", "xml", "sqlite3", "threading", "multiprocessing",
   "copy", "pickle", "socket", "struct", "math", "random", "string",
   "io", "contextlib", "warnings", "traceback", "inspect", "gc",
   "weakref", "operator", "abc", "enum", "dataclasses"]

/-- First character class of a Python identifier (`[a-zA-Z_]`). -/
def isIdentStartChar (c : Char) : Bool := c.isAlpha || c = Char.ofNat 95

/-- Continuation character class of a Python identifier (`[a-zA-Z0-9_]`). -/
def isIdentChar (c : Char) : Bool := c.isAlphanum || c = Char.ofNat 95

/-- One alternative of the import regex: keyword, at least one whitespace,
then an identifier; returns the root identifier (the dotted tail is split off
by `split('.')[0]` in the source, so only the first identifier matters). -/
def keywordRoot (kw line : List Char) : Option (List Char) :=
  if kw.isPrefixOf line then
    let rest := line.drop kw.length
    if (rest.takeWhile isSpaceChar).isEmpty then none
    else
      let r2 := rest.dropWhile isSpaceChar
      match r2 with
      | [] => none
      | c :: _ => if isIdentStartChar c then some (r2.takeWhile isIdentChar) else none
  else none

/-- Model of the anchored regex
`^(?:from\s+(module)|import\s+(module))` applied to a stripped line, returning
the root module name. -/
def parseImportRoot (line : List Char) : Option (List Char) :=
  match keywordRoot "from".toList line with
  | some r => some r
  | none => keywordRoot "import".toList line

/-- Alias mapping: `package_mappings.get(root_package, root_package)`. -/
def mapPkg (root : String) : String :=
  match packageMappings.find? (fun p => p.1 == root) with
  | some p => p.2
  | none => root

/-- Model of Python set insertion (first occurrence kept; order is erased by
the final sort anyway). -/
def dedupAdd (acc : List String) (p : String) : List String :=
  if p ∈ acc then acc else acc ++ [p]

/-- Processing of a single line of the scanned source inside
`extract_required_packages`: skip blank and comment lines, skip lines that do
not match the import regex, drop builtin roots, alias-map the rest. -/
def importLineStep (acc : List String) (line : List Char) : List String :=
  if (trimCL line).isEmpty then acc
  else if (trimCL line).head? = some (Char.ofNat 35) then acc
  else
    match parseImportRoot (trimCL line) with
    | none => acc
    | some rootCl =>
      if String.mk rootCl ∈ builtinModules then acc
      else dedupAdd acc (mapPkg (String.mk rootCl))

/-- The accumulated package set of `extract_required_packages`, as a
duplicate-free list. -/
def collectPackages (lines : List (List Char)) : List String :=
  lines.foldl importLineStep []

/-- Model of `extract_required_packages`: line-by-line scan of the code for
the import statements, then `sorted(list(packages))`. -/
def extract_required_packages (code : String) : List String :=
  (collectPackages (splitLinesCL code.toList)).mergeSort

/-! ## Code generation client (models of `generate_code_with_claude` and
`revise_code_with_claude`) -/

/-- Outcome of one call to the external generation service: the call either
raises or returns the response content string. -/
inductive GenResp where
  | raised (msg : String)
  | ok (content : String)
  deriving DecidableEq, Repr

/-- The `\x60\x60\x60python` fence opener scanned for by the generation
client (its characters spelled via `String.toList` to keep rewriting
syntactic). -/
def pyFenceCL : List Char := "```python".toList

/-- The plain `\x60\x60\x60` fence marker. -/
def fenceCL : List Char := "```".toList

/-- Model of the markdown code-fence stripping shared by
`generate_code_with_claude` and `revise_code_with_claude`: if the response
contains a fenced block the slice between the markers is kept and stripped,
otherwise the raw response text is used verbatim. -/
def stripFences (raw : String) : String :=
  if containsCL pyFenceCL raw.toList then
    match findIdxCL pyFenceCL raw.toList with
    | none => raw
    | some st =>
      match findFromCL raw.toList fenceCL (st + 8) with
      | none => raw
      | some e => String.mk (trimCL ((raw.toList.drop (st + 9)).take (e - (st + 9))))
  else if containsCL fenceCL raw.toList then
    match findIdxCL fenceCL raw.toList with
    | none => raw
    | some st =>
      match findFromCL raw.toList fenceCL (st + 3) with
      | none => raw
      | some e => String.mk (trimCL ((raw.toList.drop (st + 3)).take (e - (st + 3))))
  else raw

/-- Failure exit of `generate_code_with_claude` (its `except` block). -/
def genFail (s : OverallState) (m : String) : OverallState :=
  { s with generated_code := none,
           code_generated := false,
           error_log := s.error_log ++ ["Failed to generate code with Claude: " ++ m],
           status := "Failed to generate code with Claude: " ++ m }

/-- Model of `generate_code_with_claude`: a raised upstream call or an empty
response is caught and logged; otherwise the (fence-stripped) response is
stored as the artifact with `code_generated = True`.  Note the source checks
emptiness before fence stripping only. -/
def generate_code_with_claude (s : OverallState) (resp : GenResp) : OverallState :=
  match resp with
  | .raised m => genFail s m
  | .ok content =>
    if content = "" then genFail s "Claude did not generate any code"
    else
      { s with generated_code := some (stripFences content),
               code_generated := true,
               status := "Code generated successfully" }

/-- Model of `revise_code_with_claude`: on success the artifact is replaced
wholesale by the fence-stripped revision and the attempt counter is
incremented; on any failure (raised call or empty revision) the counter is
still incremented and the failure is appended to the error log. -/
def revise_code_with_claude (s : OverallState) (resp : GenResp) : OverallState :=
  match resp with
  | .raised m =>
    { s with revision_attempts := s.revision_attempts + 1,
             error_log := s.error_log ++ ["Failed to revise code with Claude: " ++ m],
             status := "Failed to revise code with Claude: " ++ m }
  | .ok content =>
    if content = "" then
      { s with revision_attempts := s.revision_attempts + 1,
               error_log := s.error_log ++
                 ["Failed to revise code with Claude: Claude did not generate revised code"],
               status := "Failed to revise code with Claude: Claude did not generate revised code" }
    else
      { s with generated_code := some (stripFences content),
               revision_attempts := s.revision_attempts + 1,
               status := "Code revised" }

/-! ## Sandbox lifecycle (models of `create_sandbox`, `clone_repository_with_token`
and `cleanup_sandbox`) -/

/-- Model of `create_sandbox`: both the success and the failure branch
initialise the revision counter to 0 and reset the bookkeeping fields; only
the success branch installs a sandbox handle. -/
def create_sandbox (s : OverallState) (createOk : Bool) : OverallState :=
  if createOk then
    { s with sandbox := true,
             revision_attempts := 0,
             last_error_name := none, last_error_value := none,
             last_error_type := none, last_error_details := none,
             execution_successful := false,
             langgraph_config_setup := false,
             langgraph_dev_tested := false,
             langgraph_dev_successful := false,
             git_pushed := false, git_branch := none, commit_message := none,
             status := "Sandbox created successfully" }
  else
    { s with sandbox := false,
             revision_attempts := 0,
             last_error_name := none, last_error_value := none,
             last_error_type := none, last_error_details := none,
             execution_successful := false,
             langgraph_config_setup := false,
             langgraph_dev_tested := false,
             langgraph_dev_successful := false,
             git_pushed := false, git_branch := none, commit_message := none,
             error_log := s.error_log ++ ["Failed to create sandbox"],
             status := "Failed to create sandbox" }

/-- Outcomes of the external commands run by `clone_repository_with_token`. -/
structure CloneOracle where
  cloneExit : Int := 0
  deriving DecidableEq, Repr

/-- Model of `clone_repository_with_token`: fails fast (caught, logged) when
no sandbox is available; otherwise the repository directory name is derived
from the URL and the clone succeeds exactly when the git command exits 0. -/
def clone_repository_with_token (s : OverallState) (o : CloneOracle) : OverallState :=
  if s.sandbox = false then
    { s with repo_path := none, repo_cloned := false,
             error_log := s.error_log ++ ["Failed to clone repository: No sandbox available"],
             status := "Failed to clone repository: No sandbox available" }
  else
    let repoName := repoNameOf s.target_repo_url
    if o.cloneExit = 0 then
      { s with repo_path := some repoName, repo_cloned := true,
               status := "Repository cloned successfully to " ++ repoName }
    else
      { s with repo_path := none, repo_cloned := false,
               error_log := s.error_log ++ ["Failed to clone repository: Git clone failed"],
               status := "Failed to clone repository: Git clone failed" }

/-- Success exit of `cleanup_sandbox`: overall success classification from
the state flags. -/
def cleanupSuccess (s : OverallState) : OverallState :=
  if s.execution_successful && s.code_written && s.git_pushed then
    { s with sandbox := false, success := true,
             status := "Workflow completed successfully with git operations" }
  else if s.execution_successful && s.code_written then
    { s with sandbox := false, success := true,
             status := "Workflow completed successfully (local save only)" }
  else if s.code_written then
    { s with sandbox := false, success := false,
             status := "Workflow completed with errors (code saved locally)" }
  else
    { s with sandbox := false, success := false, status := "Workflow failed" }

/-- Model of `cleanup_sandbox`.  The second component records whether
`sandbox.kill()` was invoked: the source guards the kill with
`if sandbox:`, so the kill happens exactly when a handle is present.  A
raising kill is caught and logged (teardown never throws). -/
def cleanup_sandbox (s : OverallState) (killRaises : Bool) : OverallState × Bool :=
  if s.sandbox then
    if killRaises then
      ({ s with sandbox := false, success := false,
                error_log := s.error_log ++ ["Cleanup failed: sandbox kill error"],
                status := "Cleanup failed: sandbox kill error" }, true)
    else (cleanupSuccess s, true)
  else (cleanupSuccess s, false)

/-! ## Two-phase validator (models of `run_basic_execution`,
`setup_langgraph_config`, `test_langgraph_dev` and `run_code`) -/

/-- A Python exception escaping a node.  The only escaping exception in the
pipeline is the `UnboundLocalError` raised inside the `except` handler of
`run_basic_execution` when its debug print reads the local `generated_code`
before the `raise ValueError("No sandbox available")` ever assigned it. -/
inductive PyErr where
  | unboundLocal
  deriving DecidableEq, Repr

/-- Model of the E2B `ExecutionError` value attached to an execution. -/
structure ExecErr where
  name : String := "Exception"
  value : String := ""
  deriving DecidableEq, Repr

/-- Abstract result of `sandbox.run_code`: the error attribute, the captured
stderr stream and the textual output. -/
structure Exec where
  error : Option ExecErr := none
  stderrText : String := ""
  text : String := ""
  deriving DecidableEq, Repr

/-- Oracle for the external calls made by `run_basic_execution`: whether the
`sandbox.run_code` call itself raises, and the execution result. -/
structure BOracle where
  runRaises : Option String := none
  exec : Exec := {}
  deriving DecidableEq, Repr

/-- String rendering of the execution error object (`str(execution.error)`). -/
def execErrStr (e : ExecErr) : String := e.name ++ ": " ++ e.value

/-- Model of the error-name extraction from a stderr traceback in
`run_basic_execution` (the loop over lines containing `Error:`). -/
def parseErrLine (info : String) : Option (String × String) :=
  ((splitLinesCL info.toList).find? (fun l => containsCL "Error:".toList l)).map fun line =>
    let pre := line.takeWhile (fun c => c ≠ Char.ofNat 58)
    let post := (line.dropWhile (fun c => c ≠ Char.ofNat 58)).drop 1
    let nameWords := (String.mk (trimCL pre)).splitOn " "
    ((nameWords.getLastD ""), strTrim (String.mk post))

/-- The caught-exception exit of `run_basic_execution` (lines building the
`ExecutionException` state update). -/
def basicFail (s : OverallState) (m : String) : OverallState :=
  { s with result := none,
           execution_successful := false,
           last_error_type := some "execution",
           last_error_name := some "ExecutionException",
           last_error_value := some m,
           last_error_details := some ("Failed to run basic execution: " ++ m),
           error_log := s.error_log ++ ["Failed to run basic execution: " ++ m],
           status := "Failed to run basic execution: " ++ m }

/-- The classification part of `run_basic_execution` once the sandbox call
returned: an attached execution error fails the phase; otherwise a non-empty
stderr stream containing `error` or `traceback` (case-insensitively) fails
it; anything else is a success. -/
def basicClassify (s : OverallState) (e : Exec) : OverallState :=
  match e.error with
  | some err =>
    { s with result := some e.text,
             execution_successful := false,
             last_error_type := some "execution",
             last_error_name := some err.name,
             last_error_value := some err.value,
             last_error_details := some (execErrStr err),
             status := "Basic execution failed: " ++ execErrStr err }
  | none =>
    if e.stderrText ≠ "" &&
        (containsStr (lowerStr e.stderrText) "error" ||
         containsStr (lowerStr e.stderrText) "traceback") then
      match parseErrLine e.stderrText with
      | some (n, v) =>
        { s with result := some e.text,
                 execution_successful := false,
                 last_error_type := some "execution",
                 last_error_name := some n,
                 last_error_value := some v,
                 last_error_details := some e.stderrText,
                 status := "Basic execution failed: " ++ e.stderrText }
      | none =>
        { s with result := some e.text,
                 execution_successful := false,
                 last_error_type := some "execution",
                 last_error_name := none,
                 last_error_value := none,
                 last_error_details := some e.stderrText,
                 status := "Basic execution failed: " ++ e.stderrText }
    else
      { s with result := some e.text,
               execution_successful := true,
               last_error_type := none,
               last_error_name := none,
               last_error_value := none,
               last_error_details := none,
               status := "Basic execution successful" }

/-- Body of the `try` block of `run_basic_execution` after the sandbox check
(from this point on every exception is caught and produces a well-formed
state). -/
def basicBody (s : OverallState) (o : BOracle) : OverallState :=
  match s.generated_code with
  | none => basicFail s "No generated code available"
  | some code =>
    if code = "" then basicFail s "No generated code available"
    else
      match o.runRaises with
      | some m => basicFail s m
      | none => basicClassify s o.exec

/-- Model of `run_basic_execution`.  When no sandbox is available the
function raises `ValueError` before assigning the local `generated_code`;
the `except` handler then evaluates `generated_code is not None` in its debug
print and raises `UnboundLocalError`, which escapes the node.  Every other
path returns a well-formed state update. -/
def run_basic_execution (s : OverallState) (o : BOracle) : Except PyErr OverallState :=
  if s.sandbox = false then .error .unboundLocal
  else .ok (basicBody s o)

/-- Oracle for the external calls of `setup_langgraph_config`: whether a
`sandbox.files.write` raises, and which credentials the local environment
provides for the `.env` file. -/
structure COracle where
  writeRaises : Option String := none
  langsmithKey : Option String := none
  anthropicKey : Option String := none
  openaiKey : Option String := none
  deriving DecidableEq, Repr

/-- Failure exit of `setup_langgraph_config` (its `except` block). -/
def cfgFail (s : OverallState) (m : String) : OverallState :=
  { s with langgraph_config_setup := false,
           error_log := s.error_log ++ ["Failed to setup LangGraph environment: " ++ m],
           status := "Failed to setup LangGraph environment: " ++ m }

/-- Model of `setup_langgraph_config`: requires a sandbox and repo path,
writes `langgraph.json` and a `.env` file with the locally available keys,
and reports `langgraph_config_setup` accordingly; all failures are caught. -/
def setup_langgraph_config (s : OverallState) (o : COracle) : OverallState :=
  if s.sandbox = false ∨ s.repo_path = none then
    cfgFail s "Sandbox or repository path not available"
  else
    match o.writeRaises with
    | some m => cfgFail s m
    | none =>
      { s with langgraph_config_setup := true,
               status := "LangGraph environment setup successful" }

/-- Oracle for the external calls of `test_langgraph_dev`: whether the CLI
install or file writes raise, and the combined stdout+stderr of the
`langgraph dev` probe. -/
structure DOracle where
  writeRaises : Option String := none
  cmdRaises : Option String := none
  devOutput : String := ""
  deriving DecidableEq, Repr

/-- An apostrophe character, used by one of the dev-server error markers. -/
def aposChar : Char := Char.ofNat 39

/-- The marker `graph 'graph' not found` from `error_indicators`. -/
def graphNotFoundMarker : String :=
  "graph " ++ aposChar.toString ++ "graph" ++ aposChar.toString ++ " not found"

/-- The `success_indicators` list of `test_langgraph_dev`. -/
def successIndicators : List String :=
  ["server started in",
   "🚀 api:",
   "registering graph with id",
   "welcome to",
   "server running",
   "listening on",
   "application startup complete"]

/-- The `error_indicators` list of `test_langgraph_dev`. -/
def errorIndicators : List String :=
  ["compilation failed",
   "graph compilation failed",
   "missing graph",
   graphNotFoundMarker,
   "invalid state",
   "state schema error",
   "traceback",
   "error:",
   "failed to start",
   "module not found"]

/-- Whether the lowered dev-server output contains at least one positive
startup marker. -/
def hasPositiveMarker (out : String) : Bool :=
  successIndicators.any (fun p => containsStr (lowerStr out) p)

/-- Whether the lowered dev-server output contains at least one negative
error marker. -/
def hasNegativeMarker (out : String) : Bool :=
  errorIndicators.any (fun p => containsStr (lowerStr out) p)

/-- The error sub-category chain of `test_langgraph_dev` (which negative
marker matched). -/
def classifyDevError (out : String) : String :=
  let low := lowerStr out
  if containsStr low "compilation failed" || containsStr low "graph compilation failed" then
    "Graph compilation failed"
  else if containsStr low "missing graph" || containsStr low graphNotFoundMarker then
    "Graph export missing"
  else if containsStr low "invalid state" || containsStr low "state schema error" then
    "State schema error"
  else if containsStr low "module not found" then
    "Missing dependencies"
  else
    "LangGraph dev startup failed"

/-- The caught-exception exit of `test_langgraph_dev` (its `except` block). -/
def devExcept (s : OverallState) (m : String) : OverallState :=
  { s with langgraph_dev_tested := true,
           langgraph_dev_successful := false,
           code_written := true,
           last_error_type := some "langgraph_dev",
           last_error_name := some "LangGraph dev test exception",
           last_error_value := some m,
           last_error_details := some ("LangGraph dev test failed: " ++ m),
           error_log := s.error_log ++ ["LangGraph dev test failed: " ++ m],
           status := "LangGraph dev test failed: " ++ m }

/-- Model of `test_langgraph_dev`: after writing the artifact into the
package layout and starting the dev server, the combined output is classified
as successful exactly when a positive marker is present and no negative
marker is present; otherwise the failure is recorded under error kind
`langgraph_dev` with a sub-category chosen from the matched negative
marker. -/
def test_langgraph_dev (s : OverallState) (o : DOracle) : OverallState :=
  if s.sandbox = false ∨ s.repo_path = none then
    devExcept s "Sandbox or repository path not available"
  else
    match s.generated_code with
    | none => devExcept s "No generated code available for LangGraph dev testing"
    | some code =>
      if code = "" then devExcept s "No generated code available for LangGraph dev testing"
      else
        match o.writeRaises with
        | some m => devExcept s m
        | none =>
          match o.cmdRaises with
          | some m => devExcept s m
          | none =>
            if hasPositiveMarker o.devOutput && !hasNegativeMarker o.devOutput then
              { s with langgraph_dev_tested := true,
                       langgraph_dev_successful := true,
                       code_written := true,
                       status := "LangGraph dev validation successful" }
            else
              { s with langgraph_dev_tested := true,
                       langgraph_dev_successful := false,
                       code_written := true,
                       last_error_type := some "langgraph_dev",
                       last_error_name := some (classifyDevError o.devOutput),
                       last_error_value := some "LangGraph dev validation failed",
                       last_error_details := some o.devOutput,
                       status := "LangGraph dev validation failed: " ++ classifyDevError o.devOutput }

/-- Combined oracle for one `run_code` validation attempt. -/
structure ROracle where
  basic : BOracle := {}
  cfg : COracle := {}
  dev : DOracle := {}
  deriving DecidableEq, Repr

/-- Model of `run_code`, the two-phase validator node: Phase 1 failure
short-circuits; a failed config setup is reported as a degraded success
(`execution_successful` stays true); a Phase 2 dev failure flips
`execution_successful` to false for the revision router. -/
def run_code (s : OverallState) (o : ROracle) : Except PyErr OverallState :=
  match run_basic_execution s o.basic with
  | .error e => .error e
  | .ok basic =>
    if basic.execution_successful = false then .ok basic
    else
      let cfg := setup_langgraph_config basic o.cfg
      if cfg.langgraph_config_setup = false then
        .ok { cfg with execution_successful := true,
                       status := "Basic execution successful, but LangGraph config setup failed" }
      else
        let lg := test_langgraph_dev cfg o.dev
        if lg.execution_successful && lg.langgraph_dev_successful then
          .ok { lg with status := "Full validation successful (basic execution + LangGraph dev)" }
        else if lg.execution_successful then
          .ok { lg with execution_successful := false,
                        status := "Basic execution successful, but LangGraph dev validation failed" }
        else .ok lg

/-- Total extraction from the validator result (used to state theorems about
runs in which the node did not crash). -/
def resultOr (d : OverallState) : Except PyErr OverallState → OverallState
  | .ok s => s
  | .error _ => d

/-- Whether an `Except` result is a normal return. -/
def isOkE : Except PyErr OverallState → Bool
  | .ok _ => true
  | .error _ => false

/-- Result of Phase 1 on a state with a sandbox present. -/
def phase1 (s : OverallState) (o : ROracle) : OverallState :=
  resultOr s (run_basic_execution s o.basic)

/-- Result of the Phase 2 config-setup step following Phase 1. -/
def phase2cfg (s : OverallState) (o : ROracle) : OverallState :=
  setup_langgraph_config (phase1 s o) o.cfg

/-- Result of the Phase 2 dev-server probe following config setup. -/
def phase3dev (s : OverallState) (o : ROracle) : OverallState :=
  test_langgraph_dev (phase2cfg s o) o.dev

/-- The state produced by a non-crashing `run_code` attempt. -/
def runCodeResult (s : OverallState) (o : ROracle) : OverallState :=
  resultOr s (run_code s o)

/-! ## Router and write nodes (models of `check_execution_result` and
`write_code_to_file_base`) -/

/-- The nodes of `build_modular_graph` (plus the terminal `END`). -/
inductive Node where
  | createSandbox
  | cloneRepository
  | generateCode
  | runCode
  | reviseCode
  | writeCode
  | writeLocalOnly
  | gitOperations
  | cleanupSandbox
  | finished
  deriving DecidableEq, Repr

/-- Model of the conditional router `check_execution_result`: proceed on
success, revise while the attempt budget is not exhausted, otherwise give up
to the local-only write. -/
def check_execution_result (s : OverallState) : Node :=
  if s.execution_successful then .writeCode
  else if s.revision_attempts < s.max_revision_attempts then .reviseCode
  else .writeLocalOnly

/-- Model of `write_code_to_file_base` (shared by `write_code_to_file` and
`write_code_to_file_local_only`): fails (caught, logged) without an artifact,
otherwise marks the code as written; download and sandbox write failures are
non-fatal in the source. -/
def write_code_to_file_base (s : OverallState) (forGit : Bool) : OverallState :=
  match s.generated_code with
  | none =>
    { s with code_written := false,
             error_log := s.error_log ++ ["Failed to write code: No generated code available"],
             status := "Failed to write code: No generated code available" }
  | some code =>
    if code = "" then
      { s with code_written := false,
               error_log := s.error_log ++ ["Failed to write code: No generated code available"],
               status := "Failed to write code: No generated code available" }
    else if strTrim code = "" then
      { s with code_written := false,
               error_log := s.error_log ++ ["Failed to write code: Generated code is empty"],
               status := "Failed to write code: Generated code is empty" }
    else
      { s with code_written := true,
               status := if forGit then "Code written successfully (ready for git operations)"
                         else "Code written successfully" }

/-! ## Sandbox file system and conflict handling (models of
`detect_merge_conflict_markers` and `resolve_merge_conflicts_automatically`) -/

/-- The sandbox file system visible to the publisher, as an association list
from absolute path to content (model of `sandbox.files`). -/
abbrev FS : Type := List (String × String)

/-- Model of `sandbox.files.read`: `none` when the file does not exist (the
read raises in the source and the caller treats that as absence). -/
def fsRead (fs : FS) (p : String) : Option String :=
  match List.find? (fun e => e.1 == p) fs with
  | some e => some e.2
  | none => none

/-- Model of `sandbox.files.write`: overwrite or create (the most recent
write shadows older entries; `fsRead` takes the first match). -/
def fsWrite (fs : FS) (p c : String) : FS := (p, c) :: fs

/-- Full path of an owned file inside the cloned working copy
(`f"{repo_path}/{file_path}"`). -/
def pathFor (repoPath fp : String) : String := repoPath ++ "/" ++ fp

/-- Model of the per-line merge-conflict-marker test of
`detect_merge_conflict_markers`: a stripped line starting with `<<<<<<< `,
exactly equal to `=======`, or starting with `>>>>>>> `. -/
def conflictLine (line : List Char) : Bool :=
  let l := trimCL line
  "<<<<<<< ".toList.isPrefixOf l || l == "=======".toList || ">>>>>>> ".toList.isPrefixOf l

/-- Whether a file content contains any merge-conflict marker line. -/
def hasConflictMarkers (content : String) : Bool :=
  (splitLinesCL content.toList).any conflictLine

/-- Model of `detect_merge_conflict_markers`: per-file conflict verdicts; a
missing file reads as conflict-free. -/
def detect_merge_conflict_markers (fs : FS) (repoPath : String) (filePaths : List String) :
    List (String × Bool) :=
  filePaths.map fun fp =>
    match fsRead fs (pathFor repoPath fp) with
    | none => (fp, false)
    | some c => (fp, hasConflictMarkers c)

/-- Model of `resolve_merge_conflicts_automatically`: overwrite each file of
the content map that has a content with that content; entries with no content
are skipped.  The boolean is the `all_resolved` flag (always true unless a
write raises). -/
def resolve_merge_conflicts_automatically (fs : FS) (repoPath : String)
    (m : List (String × Option String)) : FS × Bool :=
  (m.foldl (fun acc e =>
    match e.2 with
    | none => acc
    | some c => fsWrite acc (pathFor repoPath e.1) c) fs, true)

/-- The file set this run is responsible for publishing (`files_to_check` in
`git_operations`). -/
def ownedFiles : List String :=
  ["src/agent/graph.py", "src/agent/__init__.py", ".env", "langgraph.json", "requirements.txt"]

/-- The resolution content map built by `git_operations` before calling
`resolve_merge_conflicts_automatically`: the artifact file maps to the run's
generated code (skipped when empty), the package marker to its fixed text,
`.env` and `langgraph.json` to whatever the sandbox currently holds, and
`requirements.txt` to the local template when available. -/
def buildContentMap (fs : FS) (repoPath generatedCode : String)
    (reqTemplate : Option String) : List (String × Option String) :=
  [("src/agent/graph.py", if generatedCode = "" then none else some generatedCode),
   ("src/agent/__init__.py", some "# agent package"),
   (".env", fsRead fs (pathFor repoPath ".env")),
   ("langgraph.json", fsRead fs (pathFor repoPath "langgraph.json")),
   ("requirements.txt", reqTemplate)]

/-- Convenience: the file system after the scan-and-resolve step of
`git_operations` on the full owned file set. -/
def resolveOwned (fs : FS) (repoPath generatedCode : String)
    (reqTemplate : Option String) : FS :=
  (resolve_merge_conflicts_automatically fs repoPath
    (buildContentMap fs repoPath generatedCode reqTemplate)).1

/-- Whether a possibly absent resolution content is conflict-marker-free. -/
def cleanOpt : Option String → Bool
  | none => true
  | some c => !hasConflictMarkers c

/-- Whether a detection result reports no conflict in any scanned file. -/
def allClean (l : List (String × Bool)) : Bool := l.all (fun e => !e.2)

/-! ## Version-control publisher (model of `git_operations`) -/

/-- The externally visible git-level actions issued by `git_operations`,
recorded as a trace so that theorems can state which commands were or were
not attempted. -/
inductive GAct where
  | configIdentity
  | checkout
  | statusCheck
  | addGraph
  | tempCommit
  | pull
  | mergePull
  | mergeHeadCheck
  | conflictScan
  | resolveConflicts
  | writeRequirements
  | addFile (f : String)
  | diffCheck
  | commit
  | amendCommit
  | mergeCommit
  | setRemoteUrl
  | push
  | forcePush
  deriving DecidableEq, Repr

/-- Result categories of the proactive `git pull` (classified by the source
from the stderr text). -/
inductive PullRes where
  | ok
  | noRemoteRef
  | divergent
  | otherFail
  deriving DecidableEq, Repr

/-- Result categories of the `git diff --cached --quiet` staged-changes
check (exit 0, exit 1, the E2B exit-1 exception, any other exception). -/
inductive DiffRes where
  | noChanges
  | changes
  | changesExc
  | otherExc
  deriving DecidableEq, Repr

/-- Environment consumed by `git_operations`: the push token, the branch
timestamp, the local `requirements_template.txt` and the commit-message
service response (`none` models a raised call). -/
structure GEnv where
  token : Option String := none
  timestamp : String := "20250101-000000"
  reqTemplate : Option String := none
  commitResp : Option String := none
  deriving DecidableEq, Repr

/-- Oracle for the git command outcomes inside `git_operations`. -/
structure GOracle where
  configOk : Bool := true
  checkoutOk : Bool := true
  statusHasGraphPy : Bool := false
  addGraphOk : Bool := true
  tempCommitOk : Bool := true
  pullRes : PullRes := .ok
  inMergeState : Bool := false
  fsAfterPull : FS := []
  diffRes : DiffRes := .changes
  commitOk : Bool := true
  setUrlOk : Bool := true
  pushOk : Bool := true
  forcePushOk : Bool := true
  deriving Repr

/-- The double-quote character (replaced by an apostrophe when cleaning the
generated commit message). -/
def dquoteChar : Char := Char.ofNat 34

/-- Model of `generate_commit_message_with_claude`: the response is stripped
and its double quotes replaced; a raised call or an empty cleaned message
falls back to the fixed generic message. -/
def generate_commit_message_with_claude (env : GEnv) : String :=
  match env.commitResp with
  | none => "feat: auto-generated LangGraph workflow"
  | some m =>
    let cleaned :=
      String.mk ((trimCL m.toList).map (fun c => if c = dquoteChar then aposChar else c))
    if cleaned = "" then "feat: auto-generated LangGraph workflow" else cleaned

/-- Model of the proactive-pull block of `git_operations` (its inner `try`):
an untracked `graph.py` is temp-committed before the pull; the pull result
selects the follow-up command; the owned files are then scanned for conflict
markers and, if any are found, resolved with the run's content map.  All
failures inside this block are caught by its own `except` and the function
continues.  Returns the file system after resolution, the action trace and
the `made_temp_commit` flag. -/
def gitPullPhase (s : OverallState) (rp : String) (env : GEnv) (o : GOracle) :
    FS × List GAct × Bool :=
  let tempActs :=
    if o.statusHasGraphPy then
      if o.addGraphOk then [GAct.statusCheck, GAct.addGraph, GAct.tempCommit]
      else [GAct.statusCheck, GAct.addGraph]
    else [GAct.statusCheck]
  let madeTemp := o.statusHasGraphPy && o.addGraphOk && o.tempCommitOk
  let pullActs :=
    match o.pullRes with
    | .divergent => [GAct.pull, GAct.mergePull]
    | .otherFail => [GAct.pull, GAct.mergeHeadCheck]
    | _ => [GAct.pull]
  let conflicts := detect_merge_conflict_markers o.fsAfterPull rp ownedFiles
  if conflicts.any (fun e => e.2) then
    (resolveOwned o.fsAfterPull rp (s.generated_code.getD "") env.reqTemplate,
     tempActs ++ pullActs ++ [GAct.conflictScan, GAct.resolveConflicts], madeTemp)
  else
    (o.fsAfterPull, tempActs ++ pullActs ++ [GAct.conflictScan], madeTemp)

/-- Model of the `requirements_template.txt` copy step (non-fatal). -/
def gitReqCopy (fs : FS) (rp : String) (env : GEnv) : FS × List GAct :=
  match env.reqTemplate with
  | some c => (fsWrite fs (pathFor rp "requirements.txt") c, [GAct.writeRequirements])
  | none => (fs, [])

/-- The staged file set (`files_to_add` in `git_operations`). -/
def filesToAdd : List String := ["src/", ".env", "langgraph.json", "requirements.txt"]

/-- The staging actions (per-file `git add`, failures non-fatal). -/
def gitStageActs : List GAct := filesToAdd.map GAct.addFile

/-- Model of the final pre-commit conflict guard: rescan the owned files and,
if markers remain, resolve once more and re-stage. -/
def gitFinalCheck (fs : FS) (rp : String) (s : OverallState) (env : GEnv) :
    FS × List GAct :=
  let conflicts := detect_merge_conflict_markers fs rp ownedFiles
  if conflicts.any (fun e => e.2) then
    (resolveOwned fs rp (s.generated_code.getD "") env.reqTemplate,
     [GAct.conflictScan, GAct.resolveConflicts] ++ gitStageActs)
  else (fs, [GAct.conflictScan])

/-- Outcome of the commit stage of `git_operations`. -/
inductive CommitOutcome where
  | committed (msg : String)
  | noChanges
  | failed (m : String)
  deriving DecidableEq, Repr

/-- Model of the commit stage: with a temp commit in place either the merge
is completed or the temp commit is amended with the real message; otherwise a
normal commit is made unless the staged-changes check reports nothing to
commit. -/
def gitCommitPhase (madeTemp : Bool) (env : GEnv) (o : GOracle) :
    CommitOutcome × List GAct :=
  if madeTemp then
    if o.inMergeState then
      if o.commitOk then
        (.committed (generate_commit_message_with_claude env), [GAct.mergeHeadCheck, GAct.mergeCommit])
      else (.failed "Git merge completion failed", [GAct.mergeHeadCheck, GAct.mergeCommit])
    else
      if o.commitOk then
        (.committed (generate_commit_message_with_claude env), [GAct.mergeHeadCheck, GAct.amendCommit])
      else (.failed "Git commit amend failed", [GAct.mergeHeadCheck, GAct.amendCommit])
  else
    match o.diffRes with
    | .noChanges => (.noChanges, [GAct.diffCheck])
    | _ =>
      if o.commitOk then
        (.committed (generate_commit_message_with_claude env), [GAct.diffCheck, GAct.commit])
      else (.failed "Git commit failed", [GAct.diffCheck, GAct.commit])

/-- Model of the push stage: with no `GITHUB_TOKEN` the whole stage is
skipped; an unparseable repo reference raises; a failed `git remote set-url`
is only warned about and the push is skipped; a failed push retries once
with a forced push and only a failed forced push raises. -/
def gitPushPhase (repoUrl : String) (env : GEnv) (o : GOracle) :
    List GAct × Option String :=
  match env.token with
  | none => ([], none)
  | some _ =>
    if !startsWithStr repoUrl "http" && !containsStr repoUrl "/" then
      ([], some "Invalid repo URL format")
    else if o.setUrlOk = false then ([GAct.setRemoteUrl], none)
    else if o.pushOk then ([GAct.setRemoteUrl, GAct.push], none)
    else if o.forcePushOk then ([GAct.setRemoteUrl, GAct.push, GAct.forcePush], none)
    else ([GAct.setRemoteUrl, GAct.push, GAct.forcePush], some "Push failed")

/-- The caught-exception exit of `git_operations` (its `except` block). -/
def gitFail (s : OverallState) (branch : Option String) (m : String) : OverallState :=
  { s with git_branch := branch,
           commit_message := none,
           git_pushed := false,
           error_log := s.error_log ++ ["Git operations failed: " ++ m],
           status := "Git operations failed: " ++ m }

/-- Model of `git_operations`: identity configuration, branch checkout or
creation, proactive pull with conflict resolution, requirements copy,
staging, final conflict guard, commit, and the optional push stage.  The
second component is the trace of git-level actions issued. -/
def git_operations (s : OverallState) (env : GEnv) (o : GOracle) :
    OverallState × List GAct :=
  match s.repo_path with
  | none => (gitFail s s.branch_name "Sandbox or repository path not available", [])
  | some rp =>
    if s.sandbox = false then
      (gitFail s s.branch_name "Sandbox or repository path not available", [])
    else if o.configOk = false then
      (gitFail s s.branch_name "Failed to configure git identity", [GAct.configIdentity])
    else
      let branch := s.branch_name.getD ("generated-graph-" ++ env.timestamp)
      if o.checkoutOk = false then
        (gitFail s (some branch) "Git checkout failed", [GAct.configIdentity, GAct.checkout])
      else
        let pp := gitPullPhase s rp env o
        let rq := gitReqCopy pp.1 rp env
        let fc := gitFinalCheck rq.1 rp s env
        let preActs := [GAct.configIdentity, GAct.checkout] ++ pp.2.1 ++ rq.2 ++
          gitStageActs ++ fc.2
        match gitCommitPhase pp.2.2 env o with
        | (.noChanges, cActs) =>
          ({ s with git_branch := some branch,
                    commit_message := some "No changes to commit",
                    git_pushed := false,
                    status := "No changes detected in branch" }, preActs ++ cActs)
        | (.failed m, cActs) => (gitFail s (some branch) m, preActs ++ cActs)
        | (.committed msg, cActs) =>
          match gitPushPhase s.target_repo_url env o with
          | (pActs, some m) => (gitFail s (some branch) m, preActs ++ cActs ++ pActs)
          | (pActs, none) =>
            ({ s with git_branch := some branch,
                      commit_message := some msg,
                      git_pushed := true,
                      status := "Git operations completed" }, preActs ++ cActs ++ pActs)

/-! ## Orchestrator (model of `build_modular_graph`) -/

/-- The external-world outcomes consumed by one node execution. -/
structure Ev where
  createOk : Bool := true
  cloneO : CloneOracle := {}
  genResp : GenResp := .ok "print(1)"
  runO : ROracle := {}
  reviseResp : GenResp := .ok "print(1)"
  gitEnv : GEnv := {}
  gitO : GOracle := {}
  killRaises : Bool := false
  deriving Repr

/-- One node execution: the update each node of `build_modular_graph`
applies to the state.  `none` models an exception escaping the node and
aborting the graph run (only `run_code` can do this, via
`run_basic_execution`). -/
def nodeStep : Node → OverallState → Ev → Option OverallState
  | .createSandbox, s, e => some (create_sandbox s e.createOk)
  | .cloneRepository, s, e => some (clone_repository_with_token s e.cloneO)
  | .generateCode, s, e => some (generate_code_with_claude s e.genResp)
  | .runCode, s, e => (run_code s e.runO).toOption
  | .reviseCode, s, e => some (revise_code_with_claude s e.reviseResp)
  | .writeCode, s, _ => some (write_code_to_file_base s true)
  | .writeLocalOnly, s, _ => some (write_code_to_file_base s false)
  | .gitOperations, s, e => some (git_operations s e.gitEnv e.gitO).1
  | .cleanupSandbox, s, e => some (cleanup_sandbox s e.killRaises).1
  | .finished, s, _ => some s

/-- The edge relation of `build_modular_graph`: every edge except the one
out of `run_code` is unconditional; `run_code` routes through
`check_execution_result` on its output state. -/
def nextNode : Node → OverallState → Node
  | .createSandbox, _ => .cloneRepository
  | .cloneRepository, _ => .generateCode
  | .generateCode, _ => .runCode
  | .runCode, s => check_execution_result s
  | .reviseCode, _ => .runCode
  | .writeCode, _ => .gitOperations
  | .writeLocalOnly, _ => .cleanupSandbox
  | .gitOperations, _ => .cleanupSandbox
  | .cleanupSandbox, _ => .finished
  | .finished, _ => .finished

/-- Fuel-driven execution of the graph from a node: returns the list of
executed nodes paired with the state each produced, the final node (the
terminal `finished`, the crashing node, or wherever the fuel ran out) and the
final state. -/
def runTrace : Nat → Node → OverallState → (Nat → Ev) → Nat →
    List (Node × OverallState) × Node × OverallState
  | 0, n, s, _, _ => ([], n, s)
  | fuel + 1, n, s, o, i =>
    if n = .finished then ([], .finished, s)
    else
      match nodeStep n s (o i) with
      | none => ([(n, s)], n, s)
      | some s2 =>
        let rest := runTrace fuel (nextNode n s2) s2 o (i + 1)
        ((n, s2) :: rest.1, rest.2)

/-- The nodes executed by a run of the whole workflow. -/
def visitedNodes (fuel : Nat) (o : Nat → Ev) (im : Option Int) : List Node :=
  ((runTrace fuel .createSandbox (initState im) o 0).1).map Prod.fst

/-- Where a run of the whole workflow ended. -/
def finalNode (fuel : Nat) (o : Nat → Ev) (im : Option Int) : Node :=
  (runTrace fuel .createSandbox (initState im) o 0).2.1

/-- The states observed after each executed node of a run. -/
def traceStates (fuel : Nat) (o : Nat → Ev) (im : Option Int) : List OverallState :=
  ((runTrace fuel .createSandbox (initState im) o 0).1).map Prod.snd

/-- Boundedness of the revision counter along a whole run. -/
def revisionBounded (fuel : Nat) (o : Nat → Ev) (im : Option Int) : Prop :=
  ∀ st ∈ traceStates fuel o im, st.revision_attempts ≤ st.max_revision_attempts

/-- Monotonicity of the revision counter along a whole run. -/
def revisionMonotone (fuel : Nat) (o : Nat → Ev) (im : Option Int) : Prop :=
  List.Chain' (fun a b => a.revision_attempts ≤ b.revision_attempts)
    (initState im :: traceStates fuel o im)

/-! ## Theorems -/

theorem dedupAdd_nodup (acc : List String) (p : String) (h : acc.Nodup) :
    (dedupAdd acc p).Nodup := by
  unfold dedupAdd
  split
  · exact h
  · next hp =>
    have hd : List.Disjoint acc [p] := by
      intro a ha hmem
      simp at hmem
      subst hmem
      exact hp ha
    exact (List.nodup_append).mpr ⟨h, List.nodup_singleton p, hd⟩

theorem mem_dedupAdd (x : String) (acc : List String) (p : String)
    (h : x ∈ dedupAdd acc p) : x ∈ acc ∨ x = p := by
  unfold dedupAdd at h
  split at h
  · exact Or.inl h
  · rcases List.mem_append.mp h with h2 | h2
    · exact Or.inl h2
    · simp at h2
      exact Or.inr h2

theorem importLineStep_nodup (acc : List String) (line : List Char) (h : acc.Nodup) :
    (importLineStep acc line).Nodup := by
  unfold importLineStep
  split
  · exact h
  · split
    · exact h
    · split
      · exact h
      · split
        · exact h
        · exact dedupAdd_nodup _ _ h

theorem mem_importLineStep (x : String) (acc : List String) (line : List Char)
    (h : x ∈ importLineStep acc line) :
    x ∈ acc ∨ ∃ r : String, r ∉ builtinModules ∧ x = mapPkg r := by
  unfold importLineStep at h
  split at h
  · exact Or.inl h
  · split at h
    · exact Or.inl h
    · split at h
      · exact Or.inl h
      · next rootCl _ =>
        split at h
        · exact Or.inl h
        · next hb =>
          rcases mem_dedupAdd x acc _ h with h2 | h2
          · exact Or.inl h2
          · exact Or.inr ⟨String.mk rootCl, hb, h2⟩

theorem foldl_importLineStep_nodup (lines : List (List Char)) (acc : List String)
    (h : acc.Nodup) : (lines.foldl importLineStep acc).Nodup := by
  induction lines generalizing acc with
  | nil => exact h
  | cons a t ih => exact ih _ (importLineStep_nodup acc a h)

theorem mem_foldl_importLineStep (x : String) (lines : List (List Char)) (acc : List String)
    (h : x ∈ lines.foldl importLineStep acc) :
    x ∈ acc ∨ ∃ r : String, r ∉ builtinModules ∧ x = mapPkg r := by
  induction lines generalizing acc with
  | nil => exact Or.inl h
  | cons a t ih =>
    rcases ih (importLineStep acc a) h with h2 | h2
    · exact mem_importLineStep x acc a h2
    · exact Or.inr h2

theorem packageMappings_values_not_builtin :
    ∀ p ∈ packageMappings, p.2 ∉ builtinModules := by decide

theorem mapPkg_not_builtin (r : String) (h : r ∉ builtinModules) :
    mapPkg r ∉ builtinModules := by
  unfold mapPkg
  split
  · next p hp => exact packageMappings_values_not_builtin p (List.mem_of_find?_eq_some hp)
  · exact h

theorem collectPackages_nodup (lines : List (List Char)) : (collectPackages lines).Nodup :=
  foldl_importLineStep_nodup lines [] List.nodup_nil

theorem extract_sorted (code : String) :
    (extract_required_packages code).Sorted (· ≤ ·) :=
  List.sorted_mergeSort' _

theorem extract_nodup (code : String) : (extract_required_packages code).Nodup :=
  (List.mergeSort_perm _ _).symm.nodup (collectPackages_nodup _)

theorem extract_no_builtin (code : String) (b : String) (hb : b ∈ builtinModules) :
    b ∉ extract_required_packages code := by
  intro hmem
  have h1 : b ∈ collectPackages (splitLinesCL code.toList) :=
    (List.mergeSort_perm _ _).mem_iff.mp hmem
  rcases mem_foldl_importLineStep b _ [] h1 with h2 | ⟨r, hr, he⟩
  · simp at h2
  · exact mapPkg_not_builtin r hr (he ▸ hb)

theorem importLineStep_skip (acc : List String) (line : List Char)
    (h : parseImportRoot (trimCL line) = none) : importLineStep acc line = acc := by
  unfold importLineStep
  split
  · rfl
  · split
    · rfl
    · split
      · rfl
      · next heq => rw [h] at heq; exact absurd heq (by simp)

/-- Claim C6: `extract_required_packages` returns a sorted, duplicate-free
list of package names; known built-in modules never appear in the output;
repeating the scan on the same input yields the identical output; and a line
that does not match the import statement pattern contributes nothing to the
scan (malformed lines are skipped, not fatal). -/
theorem extract_packages_sorted_dedup_deterministic
    (code : String) (b : String) (line : List Char) (lines : List (List Char))
    (hb : b ∈ builtinModules)
    (hline : parseImportRoot (trimCL line) = none) :
    (extract_required_packages code).Sorted (· ≤ ·) ∧
    (extract_required_packages code).Nodup ∧
    b ∉ extract_required_packages code ∧
    extract_required_packages code = extract_required_packages code ∧
    collectPackages (line :: lines) = collectPackages lines := by
  refine ⟨extract_sorted code, extract_nodup code, extract_no_builtin code b hb, rfl, ?_⟩
  unfold collectPackages
  rw [List.foldl_cons, importLineStep_skip [] line hline]

/-- Witness for C6 at a concrete source text: `os` is a builtin and
`hello world` is a malformed line. -/
theorem extract_packages_sorted_dedup_deterministic_witness :
    (extract_required_packages "import os\nimport numpy as np\nfrom langchain_core.messages import X").Sorted (· ≤ ·) ∧
    (extract_required_packages "import os\nimport numpy as np\nfrom langchain_core.messages import X").Nodup ∧
    "os" ∉ extract_required_packages "import os\nimport numpy as np\nfrom langchain_core.messages import X" ∧
    extract_required_packages "import os\nimport numpy as np\nfrom langchain_core.messages import X" =
      extract_required_packages "import os\nimport numpy as np\nfrom langchain_core.messages import X" ∧
    collectPackages ("hello world".toList :: ["import numpy".toList]) =
      collectPackages ["import numpy".toList] :=
  extract_packages_sorted_dedup_deterministic
    "import os\nimport numpy as np\nfrom langchain_core.messages import X"
    "os" "hello world".toList ["import numpy".toList]
    (by decide) (by decide)

theorem containsCL_mono (p1 p2 : List Char) (l : List Char) (hp : p1 <+: p2)
    (h : containsCL p2 l = true) : containsCL p1 l = true := by
  induction l with
  | nil =>
    unfold containsCL at h ⊢
    have : p2 = [] := by simpa using h
    subst this
    have : p1 = [] := List.eq_nil_of_prefix_nil hp
    simp [this]
  | cons c t ih =>
    unfold containsCL at h ⊢
    rcases Bool.or_eq_true_iff.mp h with h2 | h2
    · have hpre : p2 <+: c :: t := by
        exact (List.isPrefixOf_iff_prefix).mp h2
      have : p1 <+: c :: t := hp.trans hpre
      exact Bool.or_eq_true_iff.mpr (Or.inl ((List.isPrefixOf_iff_prefix).mpr this))
    · exact Bool.or_eq_true_iff.mpr (Or.inr (ih h2))

theorem stripFences_verbatim (content : String)
    (h : containsStr content "```" = false) : stripFences content = content := by
  have hb : containsCL fenceCL content.toList = false := h
  have h2 : containsCL pyFenceCL content.toList = false := by
    by_contra hcon
    have hcon2 : containsCL pyFenceCL content.toList = true := by
      simpa using hcon
    have h3 : containsCL fenceCL content.toList = true :=
      containsCL_mono fenceCL pyFenceCL content.toList (by decide) hcon2
    rw [hb] at h3
    exact Bool.false_ne_true h3
  unfold stripFences
  rw [h2, hb]
  simp

/-- Counterexample for C7: a response consisting solely of fence markup
leaves no recoverable text after stripping, yet `generate_code_with_claude`
reports success (`code_generated = true`) with an empty artifact, because the
source checks emptiness before stripping only. -/
theorem generation_fence_only_cex :
    stripFences "```python\n```" = "" ∧
    (generate_code_with_claude {} (GenResp.ok "```python\n```")).code_generated = true ∧
    (generate_code_with_claude {} (GenResp.ok "```python\n```")).generated_code = some "" :=
  ⟨by decide, by decide, by decide⟩

/-- Claim C7 as amended: `generate_code_with_claude` fails with the error
logged and `code_generated = false` when the upstream call raises or when the
response is empty; emptiness is not re-checked after fence stripping (see the
counterexample); and when fencing markers are absent the raw response text is
used verbatim as the artifact. -/
theorem generation_failure_modes (s : OverallState) (m content : String)
    (hne : content ≠ "") (hnf : containsStr content "```" = false) :
    (generate_code_with_claude s (GenResp.raised m)).code_generated = false ∧
    (generate_code_with_claude s (GenResp.raised m)).error_log =
      s.error_log ++ ["Failed to generate code with Claude: " ++ m] ∧
    (generate_code_with_claude s (GenResp.ok "")).code_generated = false ∧
    (generate_code_with_claude s (GenResp.ok "")).error_log =
      s.error_log ++ ["Failed to generate code with Claude: Claude did not generate any code"] ∧
    (generate_code_with_claude s (GenResp.ok content)).code_generated = true ∧
    (generate_code_with_claude s (GenResp.ok content)).generated_code = some content := by
  refine ⟨rfl, rfl, rfl, rfl, ?_, ?_⟩
  · unfold generate_code_with_claude
    simp [hne]
  · unfold generate_code_with_claude
    simp [hne, stripFences_verbatim content hnf]

/-- Witness for C7 (amended) at a concrete unfenced response. -/
theorem generation_failure_modes_witness :
    (generate_code_with_claude {} (GenResp.raised "boom")).code_generated = false ∧
    (generate_code_with_claude {} (GenResp.raised "boom")).error_log =
      ({} : OverallState).error_log ++ ["Failed to generate code with Claude: boom"] ∧
    (generate_code_with_claude {} (GenResp.ok "")).code_generated = false ∧
    (generate_code_with_claude {} (GenResp.ok "")).error_log =
      ({} : OverallState).error_log ++
        ["Failed to generate code with Claude: Claude did not generate any code"] ∧
    (generate_code_with_claude {} (GenResp.ok "x = 1")).code_generated = true ∧
    (generate_code_with_claude {} (GenResp.ok "x = 1")).generated_code = some "x = 1" :=
  generation_failure_modes {} "boom" "x = 1" (by decide) (by decide)

/-- Claim C5: on a completed dev-server probe, `test_langgraph_dev` reports
success exactly when the combined output contains at least one positive
startup marker and no negative error marker; on failure it records error kind
`langgraph_dev` with the sub-category selected from the matched negative
marker by `classifyDevError`. -/
theorem dev_marker_classification (s : OverallState) (o : DOracle) (code rp : String)
    (h1 : s.sandbox = true) (h2 : s.repo_path = some rp)
    (h3 : s.generated_code = some code) (h4 : code ≠ "")
    (h5 : o.writeRaises = none) (h6 : o.cmdRaises = none) :
    ((test_langgraph_dev s o).langgraph_dev_successful = true ↔
      (hasPositiveMarker o.devOutput = true ∧ hasNegativeMarker o.devOutput = false)) ∧
    ((test_langgraph_dev s o).langgraph_dev_successful = false →
      (test_langgraph_dev s o).last_error_type = some "langgraph_dev" ∧
      (test_langgraph_dev s o).last_error_name = some (classifyDevError o.devOutput)) := by
  have hguard : ¬(s.sandbox = false ∨ s.repo_path = none) := by
    rw [h1, h2]
    simp
  unfold test_langgraph_dev
  rw [if_neg hguard, h3, h5, h6]
  simp only [h4, if_false]
  by_cases hm : hasPositiveMarker o.devOutput && !hasNegativeMarker o.devOutput
  · rw [if_pos hm]
    rcases Bool.and_eq_true_iff.mp hm with ⟨hp, hn⟩
    constructor
    · constructor
      · intro _
        refine ⟨hp, ?_⟩
        simpa using hn
      · intro _
        rfl
    · intro hf
      exact absurd hf (by simp)
  · rw [if_neg hm]
    constructor
    · constructor
      · intro hfalse
        exact absurd hfalse (by simp)
      · intro hpn
        have hcontra : (hasPositiveMarker o.devOutput && !hasNegativeMarker o.devOutput) = true := by
          rw [hpn.1, hpn.2]
          rfl
        exact absurd hcontra hm
    · intro _
      exact ⟨rfl, rfl⟩

/-- Witness for C5: a run whose output carries a positive marker and no
negative marker is classified successful. -/
theorem dev_marker_classification_witness :
    ((test_langgraph_dev { sandbox := true, repo_path := some "repo", generated_code := some "x = 1" }
        { devOutput := "Server started in 2.97s" }).langgraph_dev_successful = true ↔
      (hasPositiveMarker "Server started in 2.97s" = true ∧
       hasNegativeMarker "Server started in 2.97s" = false)) ∧
    ((test_langgraph_dev { sandbox := true, repo_path := some "repo", generated_code := some "x = 1" }
        { devOutput := "Server started in 2.97s" }).langgraph_dev_successful = false →
      (test_langgraph_dev { sandbox := true, repo_path := some "repo", generated_code := some "x = 1" }
        { devOutput := "Server started in 2.97s" }).last_error_type = some "langgraph_dev" ∧
      (test_langgraph_dev { sandbox := true, repo_path := some "repo", generated_code := some "x = 1" }
        { devOutput := "Server started in 2.97s" }).last_error_name =
        some (classifyDevError "Server started in 2.97s")) :=
  dev_marker_classification
    { sandbox := true, repo_path := some "repo", generated_code := some "x = 1" }
    { devOutput := "Server started in 2.97s" } "x = 1" "repo"
    rfl rfl rfl (by decide) rfl rfl

theorem setup_preserves_exec (s : OverallState) (o : COracle) :
    (setup_langgraph_config s o).execution_successful = s.execution_successful := by
  unfold setup_langgraph_config cfgFail
  split
  · rfl
  · split <;> rfl

theorem test_preserves_exec (s : OverallState) (o : DOracle) :
    (test_langgraph_dev s o).execution_successful = s.execution_successful := by
  unfold test_langgraph_dev devExcept
  split
  · rfl
  · split
    · rfl
    · split
      · rfl
      · split
        · rfl
        · split
          · rfl
          · split <;> rfl

theorem run_basic_ok (s : OverallState) (o : BOracle) (hs : s.sandbox = true) :
    run_basic_execution s o = .ok (basicBody s o) := by
  unfold run_basic_execution
  rw [hs]
  simp

/-- Claim C4: on a state with a sandbox present (so Phase 1 cannot crash),
`run_code` returns normally and reports overall success exactly when Phase 1
succeeded and either the Phase 2 config setup failed (the degraded case) or
the Phase 2 dev probe succeeded; in the degraded case the distinct
config-setup status is reported and the router still sends the run to the
success path, not into the revision loop. -/
theorem run_code_success_condition (s : OverallState) (o : ROracle)
    (hs : s.sandbox = true) :
    isOkE (run_code s o) = true ∧
    ((runCodeResult s o).execution_successful = true ↔
      ((phase1 s o).execution_successful = true ∧
        ((phase2cfg s o).langgraph_config_setup = false ∨
         (phase3dev s o).langgraph_dev_successful = true))) ∧
    ((phase1 s o).execution_successful = true →
      (phase2cfg s o).langgraph_config_setup = false →
      ((runCodeResult s o).status =
        "Basic execution successful, but LangGraph config setup failed" ∧
       check_execution_result (runCodeResult s o) = Node.writeCode)) := by
  have hrb : run_basic_execution s o.basic = .ok (basicBody s o.basic) :=
    run_basic_ok s o.basic hs
  have hp1 : phase1 s o = basicBody s o.basic := by
    unfold phase1 resultOr
    rw [hrb]
  have hp2 : phase2cfg s o = setup_langgraph_config (basicBody s o.basic) o.cfg := by
    unfold phase2cfg
    rw [hp1]
  have hp3 : phase3dev s o =
      test_langgraph_dev (setup_langgraph_config (basicBody s o.basic) o.cfg) o.dev := by
    unfold phase3dev
    rw [hp2]
  unfold runCodeResult run_code
  rw [hrb, hp1, hp2, hp3]
  cases hbe : (basicBody s o.basic).execution_successful with
  | false =>
    simp only [hbe, if_pos rfl, resultOr, isOkE]
    refine ⟨by trivial, ?_, ?_⟩
    · simp [hbe]
    · intro hcontra
      exact absurd hcontra (by simp)
  | true =>
    simp only [hbe]
    rw [if_neg (by simp)]
    cases hcs : (setup_langgraph_config (basicBody s o.basic) o.cfg).langgraph_config_setup with
    | false =>
      rw [if_pos rfl]
      simp only [resultOr, isOkE]
      refine ⟨by trivial, ?_, ?_⟩
      · simp
      · intro _ _
        refine ⟨by trivial, ?_⟩
        unfold check_execution_result
        simp
    | true =>
      rw [if_neg (by simp)]
      have hlge : (test_langgraph_dev (setup_langgraph_config (basicBody s o.basic) o.cfg)
          o.dev).execution_successful = true := by
        rw [test_preserves_exec, setup_preserves_exec, hbe]
      cases hdev : (test_langgraph_dev (setup_langgraph_config (basicBody s o.basic) o.cfg)
          o.dev).langgraph_dev_successful with
      | true =>
        rw [if_pos (by rw [hlge]; rfl)]
        simp only [resultOr, isOkE]
        refine ⟨by trivial, ?_, ?_⟩
        · simp [hlge]
        · intro _ hcontra
          exact absurd hcontra (by simp)
      | false =>
        rw [if_neg (by rw [hlge]; simp), if_pos hlge]
        simp only [resultOr, isOkE]
        refine ⟨by trivial, ?_, ?_⟩
        · simp
        · intro _ hcontra
          exact absurd hcontra (by simp)

/-- Witness for C4: concrete degraded run (Phase 1 succeeds, config setup
raises) showing overall success with the distinct degraded status routed to
the success path. -/
theorem run_code_success_condition_witness :
    isOkE (run_code { sandbox := true, generated_code := some "x = 1" }
      { cfg := { writeRaises := some "boom" } }) = true ∧
    ((runCodeResult { sandbox := true, generated_code := some "x = 1" }
        { cfg := { writeRaises := some "boom" } }).execution_successful = true ↔
      ((phase1 { sandbox := true, generated_code := some "x = 1" }
          { cfg := { writeRaises := some "boom" } }).execution_successful = true ∧
        ((phase2cfg { sandbox := true, generated_code := some "x = 1" }
            { cfg := { writeRaises := some "boom" } }).langgraph_config_setup = false ∨
         (phase3dev { sandbox := true, generated_code := some "x = 1" }
            { cfg := { writeRaises := some "boom" } }).langgraph_dev_successful = true))) ∧
    ((phase1 { sandbox := true, generated_code := some "x = 1" }
        { cfg := { writeRaises := some "boom" } }).execution_successful = true →
      (phase2cfg { sandbox := true, generated_code := some "x = 1" }
          { cfg := { writeRaises := some "boom" } }).langgraph_config_setup = false →
      ((runCodeResult { sandbox := true, generated_code := some "x = 1" }
          { cfg := { writeRaises := some "boom" } }).status =
        "Basic execution successful, but LangGraph config setup failed" ∧
       check_execution_result (runCodeResult { sandbox := true, generated_code := some "x = 1" }
          { cfg := { writeRaises := some "boom" } }) = Node.writeCode)) :=
  run_code_success_condition { sandbox := true, generated_code := some "x = 1" }
    { cfg := { writeRaises := some "boom" } } rfl

/-- Claim C9 (the code bug): with no sandbox handle in the state, the
`except` handler of `run_basic_execution` reads the local `generated_code`
before it was ever assigned and raises `UnboundLocalError`, so the node does
not return a well-formed state update; with a sandbox present the node always
returns normally. -/
theorem node_totality_crash (s : OverallState) (o : BOracle)
    (h : s.sandbox = false) :
    run_basic_execution s o = Except.error PyErr.unboundLocal ∧
    isOkE (run_basic_execution { s with sandbox := true } o) = true := by
  constructor
  · unfold run_basic_execution
    rw [h]
    simp
  · unfold run_basic_execution
    simp [isOkE]

/-- Witness for C9: the concrete post-provisioning-failure state. -/
theorem node_totality_crash_witness :
    run_basic_execution { sandbox := false, generated_code := some "x = 1" } {} =
      Except.error PyErr.unboundLocal ∧
    isOkE (run_basic_execution
      { ({ sandbox := false, generated_code := some "x = 1" } : OverallState) with
        sandbox := true } {}) = true :=
  node_totality_crash { sandbox := false, generated_code := some "x = 1" } {} rfl

theorem fsRead_fsWrite_same (fs : FS) (p c : String) :
    fsRead (fsWrite fs p c) p = some c := by
  unfold fsRead fsWrite
  simp

theorem fsRead_fsWrite_ne (fs : FS) (p c : String) (q : String) (h : q ≠ p) :
    fsRead (fsWrite fs p c) q = fsRead fs q := by
  unfold fsRead fsWrite
  have hb : (p == q) = false := by
    simp
    exact fun he => h he.symm
  simp [List.find?, hb]

theorem string_append_left_cancel (r a b : String) (h : r ++ a = r ++ b) : a = b := by
  have h2 : r.data ++ a.data = r.data ++ b.data := congrArg String.data h
  have h3 : a.data = b.data := List.append_cancel_left h2
  cases a
  cases b
  simp_all

theorem pathFor_ne (rp a b : String) (h : a ≠ b) : pathFor rp a ≠ pathFor rp b := by
  intro he
  exact h (string_append_left_cancel (rp ++ "/") a b he)

/-- Counterexample for C8: when the remote sync leaves conflict markers in
`.env`, the resolution map feeds the conflicted `.env` content back to the
file (the map reads `.env` from the sandbox), so the second scan of the same
file set still reports a conflict — even though the artifact file itself was
overwritten byte-for-byte with the generated code. -/
theorem conflict_rescan_zero_cex :
    allClean (detect_merge_conflict_markers
      (resolveOwned
        [(pathFor "repo" ".env", "KEY=1\n<<<<<<< HEAD\nA=1\n=======\nA=2\n>>>>>>> origin"),
         (pathFor "repo" "src/agent/graph.py", "<<<<<<< HEAD\nx = 1\n=======\nx = 2\n>>>>>>> origin")]
        "repo" "x = 1" none)
      "repo" ownedFiles) = false ∧
    fsRead (resolveOwned
        [(pathFor "repo" ".env", "KEY=1\n<<<<<<< HEAD\nA=1\n=======\nA=2\n>>>>>>> origin"),
         (pathFor "repo" "src/agent/graph.py", "<<<<<<< HEAD\nx = 1\n=======\nx = 2\n>>>>>>> origin")]
        "repo" "x = 1" none)
      (pathFor "repo" "src/agent/graph.py") = some "x = 1" :=
  ⟨by decide, by decide⟩

/-- Claim C8 as amended: resolution is authoritative for the artifact file —
after `resolve_merge_conflicts_automatically` runs on the map built by
`git_operations`, the artifact file equals the run's generated code
byte-for-byte (whenever the generated code is non-empty) — and the second
scan of the same file set reports zero conflict markers provided the
resolution contents themselves are marker-free: the generated code carries no
marker lines, and `.env`, `langgraph.json` and `requirements.txt` (whose
resolution content is read back from the sandbox or the local template, not
regenerated) are currently marker-free or absent.  The counterexample shows
the proviso is necessary. -/
theorem conflict_resolution_authoritative (fs : FS) (rp code : String) (reqT : Option String)
    (h1 : ¬code = "")
    (h2 : hasConflictMarkers code = false)
    (h3 : cleanOpt (fsRead fs (pathFor rp ".env")) = true)
    (h4 : cleanOpt (fsRead fs (pathFor rp "langgraph.json")) = true)
    (h5 : cleanOpt reqT = true)
    (h6 : reqT = none → cleanOpt (fsRead fs (pathFor rp "requirements.txt")) = true) :
    fsRead (resolveOwned fs rp code reqT) (pathFor rp "src/agent/graph.py") = some code ∧
    allClean (detect_merge_conflict_markers (resolveOwned fs rp code reqT) rp ownedFiles) = true := by
  have hne : ∀ a b : String, a ≠ b → pathFor rp a ≠ pathFor rp b := fun a b hab =>
    pathFor_ne rp a b hab
  have ne1 : pathFor rp "src/agent/graph.py" ≠ pathFor rp "src/agent/__init__.py" :=
    hne _ _ (by decide)
  have ne2 : pathFor rp "src/agent/graph.py" ≠ pathFor rp ".env" := hne _ _ (by decide)
  have ne3 : pathFor rp "src/agent/graph.py" ≠ pathFor rp "langgraph.json" := hne _ _ (by decide)
  have ne4 : pathFor rp "src/agent/graph.py" ≠ pathFor rp "requirements.txt" := hne _ _ (by decide)
  have ne5 : pathFor rp "src/agent/__init__.py" ≠ pathFor rp ".env" := hne _ _ (by decide)
  have ne6 : pathFor rp "src/agent/__init__.py" ≠ pathFor rp "langgraph.json" := hne _ _ (by decide)
  have ne7 : pathFor rp "src/agent/__init__.py" ≠ pathFor rp "requirements.txt" :=
    hne _ _ (by decide)
  have ne8 : pathFor rp ".env" ≠ pathFor rp "langgraph.json" := hne _ _ (by decide)
  have ne9 : pathFor rp ".env" ≠ pathFor rp "requirements.txt" := hne _ _ (by decide)
  have ne10 : pathFor rp "langgraph.json" ≠ pathFor rp "requirements.txt" := hne _ _ (by decide)
  have ne11 : pathFor rp ".env" ≠ pathFor rp "src/agent/graph.py" := hne _ _ (by decide)
  have ne12 : pathFor rp ".env" ≠ pathFor rp "src/agent/__init__.py" := hne _ _ (by decide)
  have ne13 : pathFor rp "langgraph.json" ≠ pathFor rp "src/agent/graph.py" := hne _ _ (by decide)
  have ne14 : pathFor rp "langgraph.json" ≠ pathFor rp "src/agent/__init__.py" :=
    hne _ _ (by decide)
  have ne15 : pathFor rp "langgraph.json" ≠ pathFor rp ".env" := hne _ _ (by decide)
  have ne16 : pathFor rp "requirements.txt" ≠ pathFor rp "src/agent/graph.py" :=
    hne _ _ (by decide)
  have ne17 : pathFor rp "requirements.txt" ≠ pathFor rp "src/agent/__init__.py" :=
    hne _ _ (by decide)
  have ne18 : pathFor rp "requirements.txt" ≠ pathFor rp ".env" := hne _ _ (by decide)
  have ne19 : pathFor rp "requirements.txt" ≠ pathFor rp "langgraph.json" := hne _ _ (by decide)
  have ne20 : pathFor rp "src/agent/__init__.py" ≠ pathFor rp "src/agent/graph.py" :=
    hne _ _ (by decide)
  have hinit : hasConflictMarkers "# agent package" = false := by decide
  unfold resolveOwned resolve_merge_conflicts_automatically buildContentMap
  rw [if_neg h1]
  rcases henv : fsRead fs (pathFor rp ".env") with _ | ec <;>
    rcases hjson : fsRead fs (pathFor rp "langgraph.json") with _ | jc <;>
    rcases hreq : reqT with _ | rc <;>
    rcases hreqf : fsRead fs (pathFor rp "requirements.txt") with _ | fc
  all_goals
    rw [henv] at h3
    rw [hjson] at h4
  all_goals
    simp only [List.foldl, detect_merge_conflict_markers, ownedFiles, allClean, List.map,
      List.all_cons, List.all_nil]
  all_goals
    first
    | (rw [hreq] at h5
       simp only [fsRead_fsWrite_same,
         fsRead_fsWrite_ne _ _ _ _ ne1, fsRead_fsWrite_ne _ _ _ _ ne2,
         fsRead_fsWrite_ne _ _ _ _ ne3, fsRead_fsWrite_ne _ _ _ _ ne4,
         fsRead_fsWrite_ne _ _ _ _ ne5, fsRead_fsWrite_ne _ _ _ _ ne6,
         fsRead_fsWrite_ne _ _ _ _ ne7, fsRead_fsWrite_ne _ _ _ _ ne8,
         fsRead_fsWrite_ne _ _ _ _ ne9, fsRead_fsWrite_ne _ _ _ _ ne10,
         fsRead_fsWrite_ne _ _ _ _ ne11, fsRead_fsWrite_ne _ _ _ _ ne12,
         fsRead_fsWrite_ne _ _ _ _ ne13, fsRead_fsWrite_ne _ _ _ _ ne14,
         fsRead_fsWrite_ne _ _ _ _ ne15, fsRead_fsWrite_ne _ _ _ _ ne16,
         fsRead_fsWrite_ne _ _ _ _ ne17, fsRead_fsWrite_ne _ _ _ _ ne18,
         fsRead_fsWrite_ne _ _ _ _ ne19, fsRead_fsWrite_ne _ _ _ _ ne20,
         henv, hjson, hreqf]
       simp_all [cleanOpt])

/-- Witness for C8 (amended): a conflicted artifact file is overwritten with
the generated code and the rescan of the whole owned file set is clean. -/
theorem conflict_resolution_authoritative_witness :
    fsRead (resolveOwned
        [(pathFor "repo" "src/agent/graph.py", "<<<<<<< HEAD\nx = 1\n=======\nx = 2\n>>>>>>> origin")]
        "repo" "x = 1" none) (pathFor "repo" "src/agent/graph.py") = some "x = 1" ∧
    allClean (detect_merge_conflict_markers
      (resolveOwned
        [(pathFor "repo" "src/agent/graph.py", "<<<<<<< HEAD\nx = 1\n=======\nx = 2\n>>>>>>> origin")]
        "repo" "x = 1" none) "repo" ownedFiles) = true :=
  conflict_resolution_authoritative
    [(pathFor "repo" "src/agent/graph.py", "<<<<<<< HEAD\nx = 1\n=======\nx = 2\n>>>>>>> origin")]
    "repo" "x = 1" none
    (by decide) (by decide) (by decide) (by decide) (by decide) (fun _ => by decide)

theorem basicBody_counters (s : OverallState) (o : BOracle) :
    (basicBody s o).revision_attempts = s.revision_attempts ∧
    (basicBody s o).max_revision_attempts = s.max_revision_attempts := by
  unfold basicBody basicFail basicClassify
  repeat' split
  all_goals exact ⟨rfl, rfl⟩

theorem run_basic_counters (s : OverallState) (o : BOracle) (r : OverallState)
    (h : run_basic_execution s o = .ok r) :
    r.revision_attempts = s.revision_attempts ∧
    r.max_revision_attempts = s.max_revision_attempts := by
  unfold run_basic_execution at h
  split at h
  · exact absurd h (by simp)
  · have : r = basicBody s o := by
      injection h with h2
      exact h2.symm
    rw [this]
    exact basicBody_counters s o

theorem setup_counters (s : OverallState) (o : COracle) :
    (setup_langgraph_config s o).revision_attempts = s.revision_attempts ∧
    (setup_langgraph_config s o).max_revision_attempts = s.max_revision_attempts := by
  unfold setup_langgraph_config cfgFail
  repeat' split
  all_goals exact ⟨rfl, rfl⟩

theorem test_counters (s : OverallState) (o : DOracle) :
    (test_langgraph_dev s o).revision_attempts = s.revision_attempts ∧
    (test_langgraph_dev s o).max_revision_attempts = s.max_revision_attempts := by
  unfold test_langgraph_dev devExcept
  repeat' split
  all_goals exact ⟨rfl, rfl⟩

theorem run_code_counters (s : OverallState) (o : ROracle) (r : OverallState)
    (h : run_code s o = .ok r) :
    r.revision_attempts = s.revision_attempts ∧
    r.max_revision_attempts = s.max_revision_attempts := by
  unfold run_code at h
  cases hb : run_basic_execution s o.basic with
  | error e => rw [hb] at h; exact absurd h (by simp)
  | ok b =>
    rw [hb] at h
    simp only [] at h
    have hbc := run_basic_counters s o.basic b hb
    have hsc := setup_counters b o.cfg
    have htc := test_counters (setup_langgraph_config b o.cfg) o.dev
    split at h
    · injection h with h2
      rw [← h2]
      exact hbc
    · split at h
      · injection h with h2
        rw [← h2]
        simp only []
        refine ⟨?_, ?_⟩
        · rw [hsc.1, hbc.1]
        · rw [hsc.2, hbc.2]
      · split at h
        · injection h with h2
          rw [← h2]
          simp only []
          refine ⟨?_, ?_⟩
          · rw [htc.1, hsc.1, hbc.1]
          · rw [htc.2, hsc.2, hbc.2]
        · split at h
          · injection h with h2
            rw [← h2]
            simp only []
            refine ⟨?_, ?_⟩
            · rw [htc.1, hsc.1, hbc.1]
            · rw [htc.2, hsc.2, hbc.2]
          · injection h with h2
            rw [← h2]
            refine ⟨?_, ?_⟩
            · rw [htc.1, hsc.1, hbc.1]
            · rw [htc.2, hsc.2, hbc.2]

theorem clone_counters (s : OverallState) (o : CloneOracle) :
    (clone_repository_with_token s o).revision_attempts = s.revision_attempts ∧
    (clone_repository_with_token s o).max_revision_attempts = s.max_revision_attempts := by
  unfold clone_repository_with_token
  repeat' split
  all_goals exact ⟨rfl, rfl⟩

theorem generate_counters (s : OverallState) (r : GenResp) :
    (generate_code_with_claude s r).revision_attempts = s.revision_attempts ∧
    (generate_code_with_claude s r).max_revision_attempts = s.max_revision_attempts := by
  unfold generate_code_with_claude genFail
  repeat' split
  all_goals exact ⟨rfl, rfl⟩

theorem write_counters (s : OverallState) (b : Bool) :
    (write_code_to_file_base s b).revision_attempts = s.revision_attempts ∧
    (write_code_to_file_base s b).max_revision_attempts = s.max_revision_attempts := by
  unfold write_code_to_file_base
  repeat' split
  all_goals exact ⟨rfl, rfl⟩

theorem git_counters (s : OverallState) (env : GEnv) (o : GOracle) :
    (git_operations s env o).1.revision_attempts = s.revision_attempts ∧
    (git_operations s env o).1.max_revision_attempts = s.max_revision_attempts := by
  unfold git_operations gitFail
  dsimp only
  repeat' split
  all_goals exact ⟨rfl, rfl⟩

theorem cleanup_counters (s : OverallState) (k : Bool) :
    (cleanup_sandbox s k).1.revision_attempts = s.revision_attempts ∧
    (cleanup_sandbox s k).1.max_revision_attempts = s.max_revision_attempts := by
  unfold cleanup_sandbox cleanupSuccess
  repeat' split
  all_goals exact ⟨rfl, rfl⟩

theorem create_counters (s : OverallState) (b : Bool) :
    (create_sandbox s b).revision_attempts = 0 ∧
    (create_sandbox s b).max_revision_attempts = s.max_revision_attempts := by
  unfold create_sandbox
  split
  all_goals exact ⟨rfl, rfl⟩

theorem revise_counters (s : OverallState) (r : GenResp) :
    (revise_code_with_claude s r).revision_attempts = s.revision_attempts + 1 ∧
    (revise_code_with_claude s r).max_revision_attempts = s.max_revision_attempts := by
  unfold revise_code_with_claude
  repeat' split
  all_goals exact ⟨rfl, rfl⟩

theorem nodeStep_counters (n : Node) (s : OverallState) (e : Ev) (s2 : OverallState)
    (h : nodeStep n s e = some s2) :
    s2.max_revision_attempts = s.max_revision_attempts ∧
    (s2.revision_attempts = s.revision_attempts ∨
     (n = .createSandbox ∧ s2.revision_attempts = 0) ∨
     (n = .reviseCode ∧ s2.revision_attempts = s.revision_attempts + 1)) := by
  cases n with
  | createSandbox =>
    simp only [nodeStep, Option.some_inj] at h
    rw [← h]
    exact ⟨(create_counters s e.createOk).2, Or.inr (Or.inl ⟨rfl, (create_counters s e.createOk).1⟩)⟩
  | cloneRepository =>
    simp only [nodeStep, Option.some_inj] at h
    rw [← h]
    exact ⟨(clone_counters s e.cloneO).2, Or.inl (clone_counters s e.cloneO).1⟩
  | generateCode =>
    simp only [nodeStep, Option.some_inj] at h
    rw [← h]
    exact ⟨(generate_counters s e.genResp).2, Or.inl (generate_counters s e.genResp).1⟩
  | runCode =>
    simp only [nodeStep] at h
    cases hr : run_code s e.runO with
    | error pe => rw [hr] at h; exact absurd h (by simp [Except.toOption])
    | ok r =>
      rw [hr] at h
      simp only [Except.toOption, Option.some_inj] at h
      rw [← h]
      exact ⟨(run_code_counters s e.runO r hr).2, Or.inl (run_code_counters s e.runO r hr).1⟩
  | reviseCode =>
    simp only [nodeStep, Option.some_inj] at h
    rw [← h]
    exact ⟨(revise_counters s e.reviseResp).2,
      Or.inr (Or.inr ⟨rfl, (revise_counters s e.reviseResp).1⟩)⟩
  | writeCode =>
    simp only [nodeStep, Option.some_inj] at h
    rw [← h]
    exact ⟨(write_counters s true).2, Or.inl (write_counters s true).1⟩
  | writeLocalOnly =>
    simp only [nodeStep, Option.some_inj] at h
    rw [← h]
    exact ⟨(write_counters s false).2, Or.inl (write_counters s false).1⟩
  | gitOperations =>
    simp only [nodeStep, Option.some_inj] at h
    rw [← h]
    exact ⟨(git_counters s e.gitEnv e.gitO).2, Or.inl (git_counters s e.gitEnv e.gitO).1⟩
  | cleanupSandbox =>
    simp only [nodeStep, Option.some_inj] at h
    rw [← h]
    exact ⟨(cleanup_counters s e.killRaises).2, Or.inl (cleanup_counters s e.killRaises).1⟩
  | finished =>
    simp only [nodeStep, Option.some_inj] at h
    rw [← h]
    exact ⟨rfl, Or.inl rfl⟩

theorem nextNode_revise (n : Node) (s : OverallState) (h : nextNode n s = .reviseCode) :
    s.revision_attempts < s.max_revision_attempts := by
  cases n <;> simp only [nextNode] at h <;> try exact absurd h (by simp)
  unfold check_execution_result at h
  split at h
  · exact absurd h (by simp)
  · split at h
    · assumption
    · exact absurd h (by simp)

theorem nextNode_ne_create (n : Node) (s : OverallState) :
    nextNode n s ≠ .createSandbox := by
  cases n <;> simp only [nextNode] <;> try simp
  unfold check_execution_result
  split
  · simp
  · split <;> simp

theorem runTrace_inv (fuel : Nat) (n : Node) (s : OverallState) (o : Nat → Ev) (i : Nat)
    (hI : s.revision_attempts ≤ s.max_revision_attempts)
    (hrev : n = .reviseCode → s.revision_attempts < s.max_revision_attempts)
    (hcr : n = .createSandbox → s.revision_attempts = 0) :
    (∀ st ∈ (runTrace fuel n s o i).1.map Prod.snd,
        st.revision_attempts ≤ st.max_revision_attempts) ∧
    List.Chain' (fun a b => a.revision_attempts ≤ b.revision_attempts)
      (s :: (runTrace fuel n s o i).1.map Prod.snd) := by
  induction fuel generalizing n s i with
  | zero => simp [runTrace]
  | succ fuel ih =>
    by_cases hn : n = .finished
    · simp [runTrace, hn]
    · unfold runTrace
      rw [if_neg hn]
      cases hstep : nodeStep n s (o i) with
      | none =>
        simp only [List.map, List.mem_singleton]
        constructor
        · intro st hst
          rw [hst]
          exact hI
        · exact List.chain'_cons.mpr ⟨le_rfl, List.chain'_singleton s⟩
      | some s2 =>
        obtain ⟨hmax, hdisj⟩ := nodeStep_counters n s (o i) s2 hstep
        have hI2 : s2.revision_attempts ≤ s2.max_revision_attempts := by
          rcases hdisj with hsame | ⟨hc, hz⟩ | ⟨hr, hp⟩
          · rw [hsame, hmax]
            exact hI
          · rw [hz, hmax]
            have h0 : s.revision_attempts = 0 := hcr hc
            rw [h0] at hI
            exact hI
          · rw [hp, hmax]
            have := hrev hr
            omega
        have hmono : s.revision_attempts ≤ s2.revision_attempts := by
          rcases hdisj with hsame | ⟨hc, hz⟩ | ⟨hr, hp⟩
          · rw [hsame]
          · rw [hz, hcr hc]
          · rw [hp]
            omega
        have hrev2 : nextNode n s2 = .reviseCode →
            s2.revision_attempts < s2.max_revision_attempts :=
          fun h => nextNode_revise n s2 h
        have hcr2 : nextNode n s2 = .createSandbox → s2.revision_attempts = 0 :=
          fun h => absurd h (nextNode_ne_create n s2)
        obtain ⟨ihb, ihc⟩ := ih (nextNode n s2) s2 (i + 1) hI2 hrev2 hcr2
        constructor
        · intro st hst
          simp only [List.map, List.mem_cons] at hst
          rcases hst with hst | hst
          · rw [hst]
            exact hI2
          · exact ihb st hst
        · simp only [List.map]
          exact List.chain'_cons.mpr ⟨hmono, ihc⟩

/-- Claim C1: along every run the revision counter starts at 0 (both branches
of `create_sandbox` set it to 0), is monotonically non-decreasing from state
to state, and never exceeds `max_revision_attempts`; every revision attempt —
including one whose generation call raises — increments the counter by
exactly 1; and on a failed validation the router `check_execution_result`
selects the revision node exactly while the counter is below the bound, so
the revise/validate loop terminates at the boundary. -/
theorem revision_loop_bounded (im : Option Int) (o : Nat → Ev) (fuel : Nat)
    (s : OverallState) (e : Ev) (r : GenResp)
    (hm : 0 ≤ im.getD 3) :
    revisionBounded fuel o im ∧
    revisionMonotone fuel o im ∧
    (create_sandbox s e.createOk).revision_attempts = 0 ∧
    (revise_code_with_claude s r).revision_attempts = s.revision_attempts + 1 ∧
    (s.execution_successful = false →
      (check_execution_result s = Node.reviseCode ↔
        s.revision_attempts < s.max_revision_attempts)) := by
  have hinv := runTrace_inv fuel .createSandbox (initState im) o 0
    (by simpa [initState] using hm) (by simp) (fun _ => rfl)
  refine ⟨hinv.1, hinv.2, (create_counters s e.createOk).1, (revise_counters s r).1, ?_⟩
  intro hf
  unfold check_execution_result
  rw [hf]
  simp only [Bool.false_eq_true, if_false]
  split
  · next hlt => simp [hlt]
  · next hlt => simp [hlt]

/-- Witness for C1 at a concrete default-budget run. -/
theorem revision_loop_bounded_witness :
    revisionBounded 12 (fun _ => {}) none ∧
    revisionMonotone 12 (fun _ => {}) none ∧
    (create_sandbox { sandbox := false } true).revision_attempts = 0 ∧
    (revise_code_with_claude { revision_attempts := 1 } (GenResp.raised "boom")).revision_attempts =
      ({ revision_attempts := 1 } : OverallState).revision_attempts + 1 ∧
    (({ revision_attempts := 1 } : OverallState).execution_successful = false →
      (check_execution_result { revision_attempts := 1 } = Node.reviseCode ↔
        ({ revision_attempts := 1 } : OverallState).revision_attempts <
          ({ revision_attempts := 1 } : OverallState).max_revision_attempts)) :=
  revision_loop_bounded none (fun _ => {}) 12 { revision_attempts := 1 }
    { createOk := true } (GenResp.raised "boom") (by decide)

theorem runTrace_finished (fuel : Nat) (s : OverallState) (o : Nat → Ev) (i : Nat) :
    runTrace fuel .finished s o i = ([], .finished, s) := by
  cases fuel <;> simp [runTrace]

theorem nextNode_ne_finished (n : Node) (s : OverallState) (h1 : n ≠ .cleanupSandbox)
    (h2 : n ≠ .finished) : nextNode n s ≠ .finished := by
  cases n
  case cleanupSandbox => exact absurd rfl h1
  case finished => exact absurd rfl h2
  case runCode =>
    simp only [nextNode]
    unfold check_execution_result
    split
    · simp
    · split <;> simp
  all_goals simp [nextNode]

theorem runTrace_cleanup_once (fuel : Nat) (n : Node) (s : OverallState) (o : Nat → Ev)
    (i : Nat) (hn : n ≠ .finished)
    (hdone : (runTrace fuel n s o i).2.1 = .finished) :
    ((runTrace fuel n s o i).1.map Prod.fst).count Node.cleanupSandbox = 1 := by
  induction fuel generalizing n s i with
  | zero => exact absurd hdone hn
  | succ fuel ih =>
    unfold runTrace at hdone ⊢
    rw [if_neg hn] at hdone ⊢
    cases hstep : nodeStep n s (o i) with
    | none =>
      rw [hstep] at hdone
      exact absurd hdone hn
    | some s2 =>
      rw [hstep] at hdone
      dsimp only at hdone ⊢
      by_cases hcl : n = .cleanupSandbox
      · subst hcl
        simp only [nextNode] at hdone ⊢
        rw [runTrace_finished]
        simp
      · have hn2 : nextNode n s2 ≠ .finished := nextNode_ne_finished n s2 hcl hn
        have hcount := ih (nextNode n s2) s2 (i + 1) hn2 hdone
        simp [List.count_cons, hcount, hcl]

/-- Claim C2: every run of the workflow graph that terminates (reaches the
END node) executes the `cleanup_sandbox` teardown node exactly once,
whichever exit path it took; and teardown invokes `sandbox.kill()` exactly
when a sandbox handle is present. -/
theorem cleanup_exactly_once (fuel : Nat) (o : Nat → Ev) (im : Option Int)
    (s : OverallState) (k : Bool)
    (h : finalNode fuel o im = Node.finished) :
    (visitedNodes fuel o im).count Node.cleanupSandbox = 1 ∧
    (cleanup_sandbox s k).2 = s.sandbox := by
  constructor
  · exact runTrace_cleanup_once fuel .createSandbox (initState im) o 0 (by simp) h
  · unfold cleanup_sandbox
    repeat' split
    all_goals simp_all

/-- Witness for C2: a fully successful run (positive dev-server output,
no token so the publisher commits without pushing) reaches END with exactly
one teardown. -/
theorem cleanup_exactly_once_witness :
    (visitedNodes 15 (fun _ => { runO := { dev := { devOutput := "Server started in 2.97s" } } })
      none).count Node.cleanupSandbox = 1 ∧
    (cleanup_sandbox { sandbox := true } false).2 =
      ({ sandbox := true } : OverallState).sandbox :=
  cleanup_exactly_once 15
    (fun _ => { runO := { dev := { devOutput := "Server started in 2.97s" } } }) none
    { sandbox := true } false (by decide)

/-- Counterexample for C3: with sandbox provisioning failing, the workflow
does not short-circuit to teardown — the clone and generation nodes are both
executed next (the graph has only unconditional edges out of
`create_sandbox`), and the run then dies inside `run_code` without ever
visiting `cleanup_sandbox`. -/
theorem provision_short_circuit_cex :
    visitedNodes 12 (fun _ => { createOk := false }) none =
      [Node.createSandbox, Node.cloneRepository, Node.generateCode, Node.runCode] ∧
    Node.cleanupSandbox ∉ visitedNodes 12 (fun _ => { createOk := false }) none ∧
    finalNode 12 (fun _ => { createOk := false }) none = Node.runCode :=
  ⟨by decide, by decide, by decide⟩

/-- Claim C3 as amended: provisioning failure does not short-circuit the
workflow: whatever the oracle, the first three executed nodes are always
`create_sandbox`, `clone_repository` and `generate_code_with_claude` (the
wiring after `create_sandbox` is unconditional), with the failed provisioning
leaving no sandbox handle for the downstream nodes. -/
theorem provision_no_short_circuit (o : Nat → Ev) (im : Option Int) (fuel : Nat)
    (h : (o 0).createOk = false) :
    (visitedNodes (fuel + 3) o im).take 3 =
      [Node.createSandbox, Node.cloneRepository, Node.generateCode] ∧
    (create_sandbox (initState im) ((o 0).createOk)).sandbox = false := by
  constructor
  · rfl
  · rw [h]
    rfl

/-- Witness for C3 (amended) at a concrete failing-provisioning oracle. -/
theorem provision_no_short_circuit_witness :
    (visitedNodes (9 + 3) (fun _ => { createOk := false }) none).take 3 =
      [Node.createSandbox, Node.cloneRepository, Node.generateCode] ∧
    (create_sandbox (initState none) (((fun _ => { createOk := false } : Nat → Ev) 0).createOk)).sandbox = false :=
  provision_no_short_circuit (fun _ => { createOk := false }) none 9 rfl

theorem gitPullPhase_no_push (s : OverallState) (rp : String) (env : GEnv) (o : GOracle) :
    GAct.push ∉ (gitPullPhase s rp env o).2.1 ∧
    GAct.forcePush ∉ (gitPullPhase s rp env o).2.1 := by
  unfold gitPullPhase
  dsimp only
  repeat' split
  all_goals simp

theorem gitPullPhase_madeTemp (s : OverallState) (rp : String) (env : GEnv) (o : GOracle) :
    (gitPullPhase s rp env o).2.2 = (o.statusHasGraphPy && o.addGraphOk && o.tempCommitOk) := by
  unfold gitPullPhase
  dsimp only
  repeat' split
  all_goals rfl

theorem gitReqCopy_no_push (fs : FS) (rp : String) (env : GEnv) :
    GAct.push ∉ (gitReqCopy fs rp env).2 ∧ GAct.forcePush ∉ (gitReqCopy fs rp env).2 := by
  unfold gitReqCopy
  repeat' split
  all_goals simp

theorem gitStageActs_no_push :
    GAct.push ∉ gitStageActs ∧ GAct.forcePush ∉ gitStageActs := by decide

theorem gitFinalCheck_no_push (fs : FS) (rp : String) (s : OverallState) (env : GEnv) :
    GAct.push ∉ (gitFinalCheck fs rp s env).2 ∧
    GAct.forcePush ∉ (gitFinalCheck fs rp s env).2 := by
  unfold gitFinalCheck
  dsimp only
  repeat' split
  all_goals simp [gitStageActs, filesToAdd]

theorem gitCommitPhase_no_push (madeTemp : Bool) (env : GEnv) (o : GOracle) :
    GAct.push ∉ (gitCommitPhase madeTemp env o).2 ∧
    GAct.forcePush ∉ (gitCommitPhase madeTemp env o).2 := by
  unfold gitCommitPhase
  repeat' split
  all_goals simp

/-- Claim C10: after a successful commit, `git_operations` reports
`git_pushed = true` even when the push steps were skipped entirely — because
`GITHUB_TOKEN` is unset, or because setting the remote URL failed — so the
public `git_pushed` output can be true for a run in which neither a push nor
the forced-push fallback was ever attempted. -/
theorem git_pushed_without_push (s : OverallState) (env : GEnv) (o : GOracle) (rp t : String)
    (h1 : s.sandbox = true) (h2 : s.repo_path = some rp)
    (h3 : o.configOk = true) (h4 : o.checkoutOk = true)
    (h5 : o.statusHasGraphPy = false) (h6 : o.diffRes = DiffRes.changes)
    (h7 : o.commitOk = true) (h8 : containsStr s.target_repo_url "/" = true) :
    (env.token = none →
      ((git_operations s env o).1.git_pushed = true ∧
       GAct.push ∉ (git_operations s env o).2 ∧
       GAct.forcePush ∉ (git_operations s env o).2)) ∧
    (env.token = some t → o.setUrlOk = false →
      ((git_operations s env o).1.git_pushed = true ∧
       GAct.push ∉ (git_operations s env o).2 ∧
       GAct.forcePush ∉ (git_operations s env o).2)) := by
  have hmt : (gitPullPhase s rp env o).2.2 = false := by
    rw [gitPullPhase_madeTemp, h5]
    rfl
  have hcommit : gitCommitPhase (gitPullPhase s rp env o).2.2 env o =
      (.committed (generate_commit_message_with_claude env), [GAct.diffCheck, GAct.commit]) := by
    rw [hmt]
    unfold gitCommitPhase
    rw [h6]
    simp [h7]
  have hgo : ∀ pActs : List GAct, gitPushPhase s.target_repo_url env o = (pActs, none) →
      (git_operations s env o).1.git_pushed = true ∧
      (git_operations s env o).2 =
        ([GAct.configIdentity, GAct.checkout] ++ (gitPullPhase s rp env o).2.1 ++
          (gitReqCopy (gitPullPhase s rp env o).1 rp env).2 ++ gitStageActs ++
          (gitFinalCheck (gitReqCopy (gitPullPhase s rp env o).1 rp env).1 rp s env).2) ++
          [GAct.diffCheck, GAct.commit] ++ pActs := by
    intro pActs hpush
    unfold git_operations
    rw [h2]
    dsimp only
    rw [if_neg (by rw [h1]; simp), if_neg (by rw [h3]; simp), if_neg (by rw [h4]; simp)]
    rw [hcommit, hpush]
    exact ⟨rfl, rfl⟩
  have hmem : ∀ pActs : List GAct,
      GAct.push ∉ pActs → GAct.forcePush ∉ pActs →
      gitPushPhase s.target_repo_url env o = (pActs, none) →
      (git_operations s env o).1.git_pushed = true ∧
      GAct.push ∉ (git_operations s env o).2 ∧
      GAct.forcePush ∉ (git_operations s env o).2 := by
    intro pActs hp hf hpush
    obtain ⟨hgp, hacts⟩ := hgo pActs hpush
    have a1 := (gitPullPhase_no_push s rp env o).1
    have a2 := (gitReqCopy_no_push (gitPullPhase s rp env o).1 rp env).1
    have a3 := gitStageActs_no_push.1
    have a4 := (gitFinalCheck_no_push
      (gitReqCopy (gitPullPhase s rp env o).1 rp env).1 rp s env).1
    have b1 := (gitPullPhase_no_push s rp env o).2
    have b2 := (gitReqCopy_no_push (gitPullPhase s rp env o).1 rp env).2
    have b3 := gitStageActs_no_push.2
    have b4 := (gitFinalCheck_no_push
      (gitReqCopy (gitPullPhase s rp env o).1 rp env).1 rp s env).2
    refine ⟨hgp, ?_, ?_⟩
    · rw [hacts]
      simp [List.mem_append, a1, a2, a3, a4, hp]
    · rw [hacts]
      simp [List.mem_append, b1, b2, b3, b4, hf]
  constructor
  · intro htok
    refine hmem [] (by simp) (by simp) ?_
    unfold gitPushPhase
    rw [htok]
  · intro htok hurl
    refine hmem [GAct.setRemoteUrl] (by simp) (by simp) ?_
    unfold gitPushPhase
    rw [htok]
    rw [if_neg (by rw [h8]; simp)]
    rw [if_pos hurl]

/-- Witness for C10: a committed run with no token configured. -/
theorem git_pushed_without_push_witness :
    (({} : GEnv).token = none →
      ((git_operations { sandbox := true, repo_path := some "repo", target_repo_url := "org/repo.git" } {} {}).1.git_pushed = true ∧
       GAct.push ∉ (git_operations { sandbox := true, repo_path := some "repo", target_repo_url := "org/repo.git" } {} {}).2 ∧
       GAct.forcePush ∉ (git_operations { sandbox := true, repo_path := some "repo", target_repo_url := "org/repo.git" } {} {}).2)) ∧
    (({} : GEnv).token = some "tok" → ({} : GOracle).setUrlOk = false →
      ((git_operations { sandbox := true, repo_path := some "repo", target_repo_url := "org/repo.git" } {} {}).1.git_pushed = true ∧
       GAct.push ∉ (git_operations { sandbox := true, repo_path := some "repo", target_repo_url := "org/repo.git" } {} {}).2 ∧
       GAct.forcePush ∉ (git_operations { sandbox := true, repo_path := some "repo", target_repo_url := "org/repo.git" } {} {}).2)) :=
  git_pushed_without_push
    { sandbox := true, repo_path := some "repo", target_repo_url := "org/repo.git" }
    {} {} "repo" "tok" rfl rfl rfl rfl rfl rfl rfl (by decide)
